import Mathlib

/-
Verification of the VapourBox worker's template-substitution engine
(src/worker/src/script_generator.rs) and pipeline executor
(src/worker/src/pipeline_executor.rs, src/worker/src/main.rs) against the
natural-language specification.

Strings are modelled as `List Char` (the templates and all substituted
values are ASCII, so Rust's byte indices coincide with character indices).
Rust `i32` is modelled as `Int` (no arithmetic that could overflow is
performed on these values; they are only compared and printed), and `f64`
is modelled as `ℚ`: the program only compares doubles with constants and
formats them with a fixed number of decimal digits, and every double value
appearing in the repository's defaults and in the specification's examples
has a short exact decimal expansion, for which the rational model agrees
with IEEE semantics.  Recursive string scans are written with explicit
fuel so that they are structurally recursive and reduce definitionally;
each top-level wrapper supplies fuel that provably suffices.
-/

set_option maxRecDepth 40000
set_option maxHeartbeats 4000000

namespace VapourBox

/-! ## String primitives (models of the Rust `str` operations used) -/

/-- String literal to character list. -/
def chars (s : String) : List Char := s.toList

/-- Whether `pat` is a prefix of `s` (model of `str::starts_with`). -/
def isPre : List Char → List Char → Bool
  | [], _ => true
  | _ :: _, [] => false
  | a :: as, b :: bs => a == b && isPre as bs

/-- Worker for `findSub`: first index `≥ i` at which `pat` occurs, scanning `s`. -/
def findSubGo (pat : List Char) : List Char → Nat → Option Nat
  | s, i =>
    if isPre pat s then some i
    else
      match s with
      | [] => none
      | _ :: t => findSubGo pat t (i + 1)

/-- Index of the first occurrence of `pat` in `s` (model of `str::find`). -/
def findSub (pat s : List Char) : Option Nat := findSubGo pat s 0

/-- Whether `pat` occurs in `s` (model of `str::contains`). -/
def containsSub (pat s : List Char) : Bool := (findSub pat s).isSome

/-- Reverse `l` onto `r` (tail-recursive helper). -/
def revApp : List Char → List Char → List Char
  | [], r => r
  | c :: t, r => revApp t (c :: r)

/-- Worker for `replaceAll`, with fuel and a reversed accumulator. -/
def replaceAllGo (pat repl : List Char) : Nat → List Char → List Char → List Char
  | _, acc, [] => revApp acc []
  | 0, acc, s => revApp acc s
  | fuel + 1, acc, c :: rest =>
    if pat ≠ [] ∧ isPre pat (c :: rest) then
      replaceAllGo pat repl fuel (revApp repl acc) ((c :: rest).drop pat.length)
    else
      replaceAllGo pat repl fuel (c :: acc) rest

/-- Replace every (leftmost, non-overlapping) occurrence of `pat` in `s` by
`repl` (model of `str::replace`; the program never calls it with an empty
pattern, for which this model is the identity). -/
def replaceAll (pat repl s : List Char) : List Char := replaceAllGo pat repl s.length [] s

/-- First `n` characters of `s`, reversed onto `acc` (tail-recursive helper). -/
def revTake : Nat → List Char → List Char → List Char
  | 0, _, acc => acc
  | _ + 1, [], acc => acc
  | n + 1, c :: t, acc => revTake n t (c :: acc)

/-! ## `remove_block` (src/worker/src/script_generator.rs, lines 1124-1140)

The Rust loop repeatedly finds the first occurrence of `startTag`, then the
first occurrence of `endTag` at or after it; if found, it deletes everything
from the start tag through the end tag, plus an immediately following
newline; if the end tag is missing it breaks, returning the string as it
stands.  Each deletion removes at least the end tag (which is never empty),
so at most `s.length` deletions happen: fuel `s.length + 1` suffices, which
is proved below (`removeBlockGo_fuel_stable`). -/

/-- One-loop-iteration-per-fuel-unit model of the `remove_block` loop. -/
def removeBlockGo (startTag endTag : List Char) : Nat → List Char → List Char
  | 0, s => s
  | fuel + 1, s =>
    match findSub startTag s with
    | none => s
    | some p =>
      match findSub endTag (s.drop p) with
      | none => s
      | some q =>
        let endPos := p + q + endTag.length
        let removeEnd := if isPre ['\n'] (s.drop endPos) then endPos + 1 else endPos
        removeBlockGo startTag endTag fuel (revApp (revTake p s []) (s.drop removeEnd))

/-- Model of `remove_block` from src/worker/src/script_generator.rs. -/
def remove_block (startTag endTag s : List Char) : List Char :=
  removeBlockGo startTag endTag (s.length + 1) s

/-! ## Tag construction and the `process_optional_*` helpers
(src/worker/src/script_generator.rs, lines 1051-1121) -/

/-- The `format!("{{{{#{}}}}}", name)` start tag. -/
def startTagOf (name : List Char) : List Char := chars "\x7b\x7b#" ++ name ++ chars "\x7d\x7d"

/-- The `format!("{{{{/{}}}}}", name)` end tag. -/
def endTagOf (name : List Char) : List Char := chars "\x7b\x7b/" ++ name ++ chars "\x7d\x7d"

/-- The `format!("{{{{{}}}}}", name)` placeholder. -/
def placeholderOf (name : List Char) : List Char := chars "\x7b\x7b" ++ name ++ chars "\x7d\x7d"

/-! ## Decimal rendering -/

/-- Worker producing the decimal digits of `n` (most significant first),
with fuel (`n + 1` always suffices since a number has at most `n + 1` digits). -/
def natDigitsGo : Nat → Nat → List Char → List Char
  | 0, _, acc => acc
  | fuel + 1, n, acc =>
    let acc := Char.ofNat (48 + n % 10) :: acc
    if n < 10 then acc else natDigitsGo fuel (n / 10) acc

/-- Decimal rendering of a natural number. -/
def natToStr (n : Nat) : List Char := natDigitsGo (n + 1) n []

/-- Decimal rendering of an integer (model of `i32`'s `Display`/`to_string`). -/
def intToStr (i : Int) : List Char :=
  if i < 0 then '-' :: natToStr i.natAbs else natToStr i.natAbs

/-- Remove all trailing occurrences of `c` (model of `str::trim_end_matches(c)`). -/
def trimEndChar (c : Char) (s : List Char) : List Char :=
  (List.dropWhile (fun x => x == c) s.reverse).reverse

/-! Batteries marks the rational arithmetic operations `@[irreducible]`, so
terms built with `+`, `-`, `*`, `/` on ℚ do not evaluate during proof
elaboration.  The embedding therefore computes internally with the
component-level equivalents below (`mkRat` and the `num`/`den` projections
reduce fine); `qsub_eq`, `qdiv_eq` and `qabs_eq` below prove that they are
exactly subtraction, division and absolute value on ℚ. -/

/-- Subtraction on ℚ, computed componentwise (equals `x - y`, see `qsub_eq`). -/
@[noinline] def qsub (x y : ℚ) : ℚ :=
  mkRat (x.num * (y.den : Int) - y.num * (x.den : Int)) (x.den * y.den)

/-- Division on ℚ, computed componentwise (equals `x / y`, see `qdiv_eq`). -/
@[noinline] def qdiv (x y : ℚ) : ℚ :=
  Rat.divInt (x.num * (y.den : Int)) ((x.den : Int) * y.num)

/-- Absolute value on ℚ, computed componentwise (equals `|x|`, see `qabs_eq`). -/
@[noinline] def qabs (x : ℚ) : ℚ := mkRat |x.num| x.den

/-- The constant 0.5 (the documented `match_enhance` default). -/
@[noinline] def qHalf : ℚ := mkRat 1 2

/-- The constant 0.001 (the tolerance of the source's `.abs() > 0.001` tests). -/
@[noinline] def qMilli : ℚ := mkRat 1 1000

/-- Round `q * k` to the nearest integer, ties to even (the rounding used by
Rust's fixed-precision float formatting), computed on the components:
`q * k = (q.num * k) / q.den` with `q.den > 0`, so the floor is the floor
division of the numerator and the comparison of the remainder against one
half is done cross-multiplied. -/
def roundHalfEvenScaled (q : ℚ) (k : Nat) : Int :=
  let num := q.num * (k : Int)
  let den := (q.den : Int)
  let f := num.fdiv den
  let r2 := 2 * (num - f * den)
  if r2 < den then f
  else if den < r2 then f + 1
  else if f % 2 = 0 then f else f + 1

/-- Left-pad the decimal rendering of `m` with zeros to 4 digits. -/
def pad4 (m : Nat) : List Char :=
  let d := natToStr m
  List.replicate (4 - d.length) '0' ++ d

/-- Model of `format!("{:.4}", val)`: the value rendered with exactly four
decimal digits, i.e. the round-half-even of `q * 10000` (exact for values
whose decimal expansion terminates within four places, which covers every
double the repository renders). -/
def fmtFixed4 (q : ℚ) : List Char :=
  let n := roundHalfEvenScaled q 10000
  let sign : List Char := if q.num < 0 then ['-'] else []
  sign ++ natToStr (n.natAbs / 10000) ++ '.' :: pad4 (n.natAbs % 10000)

/-- Model of the double-formatting expression in `process_optional_double`
(src/worker/src/script_generator.rs, lines 1079-1083): integers (`fract() == 0`,
i.e. denominator 1) are rendered with one decimal digit via `format!("{:.1}")`;
other values are rendered with four decimal digits and then stripped of
trailing zeros and of a trailing decimal point. -/
def formatDouble (q : ℚ) : List Char :=
  if q.den = 1 then intToStr q.num ++ chars ".0"
  else trimEndChar '.' (trimEndChar '0' (fmtFixed4 q))

/-! ## The `process_optional_*` functions -/

/-- Model of `process_optional_int` (script_generator.rs, lines 1052-1067). -/
def process_optional_int (name : List Char) (value : Option Int) (s : List Char) : List Char :=
  match value with
  | some v =>
    let s := replaceAll (startTagOf name) [] s
    let s := replaceAll (endTagOf name) [] s
    replaceAll (placeholderOf name) (intToStr v) s
  | none => remove_block (startTagOf name) (endTagOf name) s

/-- Model of `process_optional_double` (script_generator.rs, lines 1070-1089). -/
def process_optional_double (name : List Char) (value : Option ℚ) (s : List Char) : List Char :=
  match value with
  | some v =>
    let s := replaceAll (startTagOf name) [] s
    let s := replaceAll (endTagOf name) [] s
    replaceAll (placeholderOf name) (formatDouble v) s
  | none => remove_block (startTagOf name) (endTagOf name) s

/-- Model of `process_optional_bool` (script_generator.rs, lines 1092-1105):
booleans render as the Python literals `True` / `False`. -/
def process_optional_bool (name : List Char) (value : Option Bool) (s : List Char) : List Char :=
  match value with
  | some v =>
    let s := replaceAll (startTagOf name) [] s
    let s := replaceAll (endTagOf name) [] s
    replaceAll (placeholderOf name) (if v then chars "True" else chars "False") s
  | none => remove_block (startTagOf name) (endTagOf name) s

/-- Model of `process_optional_string` (script_generator.rs, lines 1108-1121). -/
def process_optional_string (name : List Char) (value : Option (List Char)) (s : List Char) : List Char :=
  match value with
  | some v =>
    let s := replaceAll (startTagOf name) [] s
    let s := replaceAll (endTagOf name) [] s
    replaceAll (placeholderOf name) v s
  | none => remove_block (startTagOf name) (endTagOf name) s

/-! ## Data model (src/worker/src/models/)

Rust `i32` fields are modelled as `Int`, `f64` as `ℚ`, `String` as
`List Char`, `Option<T>` as `Option`. -/

/-- QTGMC quality/speed presets (models/qtgmc_parameters.rs). -/
inductive QTGMCPreset
  | Placebo | VerySlow | Slower | Slow | Medium | Fast | Faster
  | VeryFast | SuperFast | UltraFast | Draft
deriving DecidableEq

/-- Model of `QTGMCPreset::as_str`. -/
def QTGMCPreset.asStr : QTGMCPreset → List Char
  | .Placebo => chars "Placebo"
  | .VerySlow => chars "Very Slow"
  | .Slower => chars "Slower"
  | .Slow => chars "Slow"
  | .Medium => chars "Medium"
  | .Fast => chars "Fast"
  | .Faster => chars "Faster"
  | .VeryFast => chars "Very Fast"
  | .SuperFast => chars "Super Fast"
  | .UltraFast => chars "Ultra Fast"
  | .Draft => chars "Draft"

/-- QTGMC deinterlacing parameters (models/qtgmc_parameters.rs). -/
structure QTGMCParameters where
  enabled : Bool
  preset : QTGMCPreset
  input_type : Int
  tff : Option Bool
  fps_divisor : Int
  tr0 : Option Int
  tr1 : Option Int
  tr2 : Option Int
  rep0 : Option Int
  rep1 : Int
  rep2 : Option Int
  rep_chroma : Bool
  edi_mode : Option (List Char)
  nn_size : Option Int
  nn_neurons : Option Int
  edi_qual : Int
  edi_max_d : Option Int
  chroma_edi : List Char
  block_size : Option Int
  overlap : Option Int
  search : Option Int
  search_param : Option Int
  pel_search : Option Int
  chroma_motion : Option Bool
  true_motion : Bool
  lambda : Option Int
  lsad : Option Int
  p_new : Option Int
  p_level : Option Int
  global_motion : Bool
  dct : Int
  sub_pel : Option Int
  sub_pel_interp : Int
  th_sad1 : Int
  th_sad2 : Int
  th_scd1 : Int
  th_scd2 : Int
  sharpness : Option ℚ
  s_mode : Option Int
  sl_mode : Option Int
  sl_rad : Option Int
  s_ovs : Int
  sv_thin : ℚ
  sbb : Option Int
  srch_clip_pp : Option Int
  noise_process : Option Int
  ez_denoise : Option ℚ
  ez_keep_grain : Option ℚ
  noise_preset : List Char
  denoiser : Option (List Char)
  fft_threads : Int
  denoise_mc : Option Bool
  noise_tr : Option Int
  sigma : Option ℚ
  chroma_noise : Bool
  show_noise : ℚ
  grain_restore : Option ℚ
  noise_restore : Option ℚ
  noise_deint : Option (List Char)
  stabilize_noise : Option Bool
  source_match : Int
  match_preset : Option (List Char)
  match_edi : Option (List Char)
  match_preset2 : Option (List Char)
  match_edi2 : Option (List Char)
  match_tr2 : Int
  match_enhance : ℚ
  lossless : Int
  border : Bool
  precise : Option Bool
  force_tr : Int
  str : ℚ
  amp : ℚ
  fast_ma : Bool
  e_search_p : Bool
  refine_motion : Bool
  opencl : Bool
  device : Option Int

/-- Model of `QTGMCParameters::default` (models/qtgmc_parameters.rs, lines 350-433). -/
def QTGMCParameters.default : QTGMCParameters where
  enabled := true
  preset := .Slower
  input_type := 0
  tff := none
  fps_divisor := 1
  tr0 := none
  tr1 := none
  tr2 := none
  rep0 := none
  rep1 := 0
  rep2 := none
  rep_chroma := true
  edi_mode := none
  nn_size := none
  nn_neurons := none
  edi_qual := 1
  edi_max_d := none
  chroma_edi := []
  block_size := none
  overlap := none
  search := none
  search_param := none
  pel_search := none
  chroma_motion := none
  true_motion := false
  lambda := none
  lsad := none
  p_new := none
  p_level := none
  global_motion := true
  dct := 0
  sub_pel := none
  sub_pel_interp := 2
  th_sad1 := 640
  th_sad2 := 256
  th_scd1 := 180
  th_scd2 := 98
  sharpness := none
  s_mode := none
  sl_mode := none
  sl_rad := none
  s_ovs := 0
  sv_thin := 0
  sbb := none
  srch_clip_pp := none
  noise_process := none
  ez_denoise := none
  ez_keep_grain := none
  noise_preset := chars "Fast"
  denoiser := none
  fft_threads := 1
  denoise_mc := none
  noise_tr := none
  sigma := none
  chroma_noise := false
  show_noise := 0
  grain_restore := none
  noise_restore := none
  noise_deint := none
  stabilize_noise := none
  source_match := 0
  match_preset := none
  match_edi := none
  match_preset2 := none
  match_edi2 := none
  match_tr2 := 1
  match_enhance := mkRat 1 2
  lossless := 0
  border := false
  precise := none
  force_tr := 0
  str := 2
  amp := mkRat 1 16
  fast_ma := false
  e_search_p := false
  refine_motion := false
  opencl := false
  device := none

/-- Noise reduction method (models/noise_reduction_parameters.rs). -/
inductive NoiseReductionMethod
  | SmDegrain | McTemporalDenoise | QtgmcBuiltin
deriving DecidableEq

/-- Noise reduction parameters (models/noise_reduction_parameters.rs);
the `preset` selector is irrelevant to generation and omitted. -/
structure NoiseReductionParameters where
  enabled : Bool
  method : NoiseReductionMethod
  sm_degrain_tr : Int
  sm_degrain_th_sad : Int
  sm_degrain_th_sadc : Int
  sm_degrain_refine : Bool
  sm_degrain_prefilter : Int
  mc_temporal_sigma : ℚ
  mc_temporal_radius : Int
  mc_temporal_profile : List Char
  qtgmc_ez_denoise : ℚ
  qtgmc_ez_keep_grain : ℚ

/-- Model of `NoiseReductionParameters::default` (documented defaults:
tr 2, thSAD 300, thSADC 150, refine true, prefilter 2, sigma 4.0, radius 2). -/
def NoiseReductionParameters.default : NoiseReductionParameters where
  enabled := false
  method := .SmDegrain
  sm_degrain_tr := 2
  sm_degrain_th_sad := 300
  sm_degrain_th_sadc := 150
  sm_degrain_refine := true
  sm_degrain_prefilter := 2
  mc_temporal_sigma := 4
  mc_temporal_radius := 2
  mc_temporal_profile := chars "fast"
  qtgmc_ez_denoise := 0
  qtgmc_ez_keep_grain := 0

/-- Dehalo method (models/dehalo_parameters.rs). -/
inductive DehaloMethod
  | DehaloAlpha | FineDehalo | Yahr
deriving DecidableEq

/-- Dehalo parameters (models/dehalo_parameters.rs). -/
structure DehaloParameters where
  enabled : Bool
  method : DehaloMethod
  rx : ℚ
  ry : ℚ
  dark_str : ℚ
  bright_str : ℚ
  low_threshold : Int
  high_threshold : Int
  yahr_blur : Int
  yahr_depth : Int

/-- Model of `DehaloParameters::default` (documented defaults: rx 2.0, ry 2.0,
darkstr 1.0, brightstr 1.0, low 50, high 100, blur 2, depth 32). -/
def DehaloParameters.default : DehaloParameters where
  enabled := false
  method := .DehaloAlpha
  rx := 2
  ry := 2
  dark_str := 1
  bright_str := 1
  low_threshold := 50
  high_threshold := 100
  yahr_blur := 2
  yahr_depth := 32

/-- Deblock method (models/deblock_parameters.rs). -/
inductive DeblockMethod
  | DeblockQed | Deblock
deriving DecidableEq

/-- Deblock parameters (models/deblock_parameters.rs). -/
structure DeblockParameters where
  enabled : Bool
  method : DeblockMethod
  quant1 : Int
  quant2 : Int
  a_offset1 : Int
  a_offset2 : Int
  block_size : Int
  overlap : Int

/-- Model of `DeblockParameters::default` (documented defaults: quant1 24,
quant2 26, offsets 1, block 8, overlap 4). -/
def DeblockParameters.default : DeblockParameters where
  enabled := false
  method := .DeblockQed
  quant1 := 24
  quant2 := 26
  a_offset1 := 1
  a_offset2 := 1
  block_size := 8
  overlap := 4

/-- Deband parameters (models/deband_parameters.rs). -/
structure DebandParameters where
  enabled : Bool
  range : Int
  y : Int
  cb : Int
  cr : Int
  grain_y : Int
  grain_c : Int
  dynamic_grain : Bool
  output_depth : Int

/-- Model of `DebandParameters::default` (documented defaults: range 15,
y/cb/cr 32, grain 24, dynamic grain true, depth 16). -/
def DebandParameters.default : DebandParameters where
  enabled := false
  range := 15
  y := 32
  cb := 32
  cr := 32
  grain_y := 24
  grain_c := 24
  dynamic_grain := true
  output_depth := 16

/-- Sharpen method (models/sharpen_parameters.rs). -/
inductive SharpenMethod
  | LSFmod | CAS
deriving DecidableEq

/-- Sharpen parameters (models/sharpen_parameters.rs). -/
structure SharpenParameters where
  enabled : Bool
  method : SharpenMethod
  strength : Int
  overshoot : Int
  undershoot : Int
  soft_edge : Int
  cas_sharpness : ℚ

/-- Model of `SharpenParameters::default` (documented defaults: strength 100,
overshoot 1, undershoot 1, soft 0, CAS sharpness 0.5). -/
def SharpenParameters.default : SharpenParameters where
  enabled := false
  method := .LSFmod
  strength := 100
  overshoot := 1
  undershoot := 1
  soft_edge := 0
  cas_sharpness := mkRat 1 2

/-- Chroma fix parameters (models/chroma_fix_parameters.rs); the `preset`
selector is irrelevant to generation and omitted. -/
structure ChromaFixParameters where
  enabled : Bool
  apply_chroma_bleeding_fix : Bool
  chroma_bleed_cx : Int
  chroma_bleed_cy : Int
  chroma_bleed_c_blur : ℚ
  chroma_bleed_strength : ℚ
  apply_de_crawl : Bool
  de_crawl_y_thresh : Int
  de_crawl_c_thresh : Int
  de_crawl_max_diff : Int
  apply_vinverse : Bool
  vinverse_sstr : ℚ
  vinverse_amnt : Int
  vinverse_scl : Int

/-- Model of `ChromaFixParameters::default`. -/
def ChromaFixParameters.default : ChromaFixParameters where
  enabled := false
  apply_chroma_bleeding_fix := false
  chroma_bleed_cx := 4
  chroma_bleed_cy := 4
  chroma_bleed_c_blur := mkRat 7 10
  chroma_bleed_strength := 1
  apply_de_crawl := false
  de_crawl_y_thresh := 10
  de_crawl_c_thresh := 10
  de_crawl_max_diff := 50
  apply_vinverse := false
  vinverse_sstr := mkRat 27 10
  vinverse_amnt := 255
  vinverse_scl := 12

/-- Color correction parameters (models/color_correction_parameters.rs);
`preset`, `coring` and `apply_levels` are irrelevant to generation and omitted. -/
structure ColorCorrectionParameters where
  enabled : Bool
  brightness : ℚ
  contrast : ℚ
  hue : ℚ
  saturation : ℚ
  input_low : Int
  input_high : Int
  output_low : Int
  output_high : Int
  gamma : ℚ

/-- Model of `ColorCorrectionParameters::default`. -/
def ColorCorrectionParameters.default : ColorCorrectionParameters where
  enabled := false
  brightness := 0
  contrast := 1
  hue := 0
  saturation := 1
  input_low := 0
  input_high := 255
  output_low := 0
  output_high := 255
  gamma := 1

/-- Resize kernel (models/crop_resize_parameters.rs). -/
inductive ResizeKernel
  | Spline36 | Lanczos | Bicubic | Bilinear | Nnedi3 | Eedi3
deriving DecidableEq

/-- Integer upscale method (models/crop_resize_parameters.rs). -/
inductive UpscaleMethod
  | Nnedi3Rpow2 | Eedi3Rpow2 | Spline36
deriving DecidableEq

/-- Crop/resize parameters (models/crop_resize_parameters.rs); the `preset`
selector is irrelevant to generation and omitted. -/
structure CropResizeParameters where
  enabled : Bool
  crop_enabled : Bool
  crop_left : Int
  crop_right : Int
  crop_top : Int
  crop_bottom : Int
  resize_enabled : Bool
  target_width : Option Int
  target_height : Option Int
  kernel : ResizeKernel
  maintain_aspect : Bool
  use_integer_upscale : Bool
  upscale_method : UpscaleMethod
  upscale_factor : Int

/-- Model of `CropResizeParameters::default`. -/
def CropResizeParameters.default : CropResizeParameters where
  enabled := false
  crop_enabled := false
  crop_left := 0
  crop_right := 0
  crop_top := 0
  crop_bottom := 0
  resize_enabled := false
  target_width := none
  target_height := none
  kernel := .Spline36
  maintain_aspect := true
  use_integer_upscale := false
  upscale_method := .Nnedi3Rpow2
  upscale_factor := 2

/-- The full restoration pipeline.  The struct in
models/restoration_pipeline.rs declares `deinterlace`, `noise_reduction`,
`color_correction`, `chroma_fixes` and `crop_resize`; the generator
(script_generator.rs) additionally reads `pipeline.dehalo`,
`pipeline.deblock`, `pipeline.deband` and `pipeline.sharpen`, whose
parameter structs are declared in src/worker/src/models/ but whose field
wiring is missing from the copy of restoration_pipeline.rs; those four
fields are included here as the generator requires them, typed by the
in-repository parameter structs. -/
structure RestorationPipeline where
  deinterlace : QTGMCParameters
  noise_reduction : NoiseReductionParameters
  dehalo : DehaloParameters
  deblock : DeblockParameters
  deband : DebandParameters
  sharpen : SharpenParameters
  color_correction : ColorCorrectionParameters
  chroma_fixes : ChromaFixParameters
  crop_resize : CropResizeParameters

/-- Model of `RestorationPipeline::from_legacy`: the legacy QTGMC set becomes
the deinterlace stage and every other stage is disabled. -/
def RestorationPipeline.from_legacy (q : QTGMCParameters) : RestorationPipeline where
  deinterlace := q
  noise_reduction := NoiseReductionParameters.default
  dehalo := DehaloParameters.default
  deblock := DeblockParameters.default
  deband := DebandParameters.default
  sharpen := SharpenParameters.default
  color_correction := ColorCorrectionParameters.default
  chroma_fixes := ChromaFixParameters.default
  crop_resize := CropResizeParameters.default

/-- Detected field order (models/video_job.rs). -/
inductive FieldOrder
  | TopFieldFirst | BottomFieldFirst | Progressive | Unknown
deriving DecidableEq

/-- Video codec (models/video_job.rs). -/
inductive VideoCodec
  | H264 | H265 | FFV1 | ProResProxy | ProResLT | ProRes422 | ProResHQ
deriving DecidableEq

/-- FFmpeg encoding settings (models/video_job.rs); the container selector is
irrelevant to the modelled behaviour and omitted. -/
structure EncodingSettings where
  codec : VideoCodec
  encoder_preset : List Char
  quality : Int
  audio_copy : Bool
  audio_codec : List Char
  audio_bitrate : Int
  custom_ffmpeg_args : List Char

/-- Model of `EncodingSettings::default`. -/
def EncodingSettings.default : EncodingSettings where
  codec := .H264
  encoder_preset := chars "medium"
  quality := 18
  audio_copy := true
  audio_codec := chars "aac"
  audio_bitrate := 192
  custom_ffmpeg_args := []

/-- A video processing job (models/video_job.rs). -/
structure VideoJob where
  id : List Char
  input_path : List Char
  output_path : List Char
  qtgmc_parameters : QTGMCParameters
  restoration_pipeline : Option RestorationPipeline
  encoding_settings : EncodingSettings
  detected_field_order : Option FieldOrder
  total_frames : Option Int
  input_frame_rate : Option ℚ

/-- Model of `VideoJob::effective_pipeline`: the multi-stage pipeline if set,
otherwise one synthesized from the legacy single-stage parameters. -/
def VideoJob.effective_pipeline (job : VideoJob) : RestorationPipeline :=
  job.restoration_pipeline.getD (RestorationPipeline.from_legacy job.qtgmc_parameters)

/-! ## The substitution engine (script_generator.rs, lines 144-634)

`substitute_parameters_on` is one long function that handles the stages in a
fixed order; it is embedded here as a composition of one definition per
stage section, applied in exactly the source order.  Shorthands used below:
`rmTags name s` is the pair of `script.replace(start, "")` /
`script.replace(end, "")` calls that keep a block while stripping its
markers, and `rmBlockN name s` is `remove_block` applied to the tags of
`name`. -/

/-- Strip a block's start and end markers, keeping its content (the
`script.replace("{{#N}}", "")` / `script.replace("{{/N}}", "")` pairs). -/
def rmTags (name : List Char) (s : List Char) : List Char :=
  replaceAll (endTagOf name) [] (replaceAll (startTagOf name) [] s)

/-- `remove_block` applied to the start/end tags of `name`. -/
def rmBlockN (name : List Char) (s : List Char) : List Char :=
  remove_block (startTagOf name) (endTagOf name) s

/-- The argument passed for `FPS_DIVISOR` (script_generator.rs line 189):
present only when it deviates from the documented default 1. -/
def fpsDivisorArg (p : QTGMCParameters) : Option Int :=
  if p.fps_divisor ≠ 1 then some p.fps_divisor else none

/-- The argument passed for `TH_SAD1` (script_generator.rs line 226):
present only when it deviates from the documented default 640. -/
def thSad1Arg (p : QTGMCParameters) : Option Int :=
  if p.th_sad1 ≠ 640 then some p.th_sad1 else none

/-- The argument passed for `DEBAND_RANGE` (script_generator.rs line 405):
always present when the deband stage runs, with no default comparison. -/
def debandRangeArg (d : DebandParameters) : Option Int := some d.range

/-- The argument passed for `NR_PREFILTER` (script_generator.rs line 299):
present only when it deviates from the documented default 2. -/
def nrPrefilterArg (nr : NoiseReductionParameters) : Option Int :=
  if nr.sm_degrain_prefilter ≠ 2 then some nr.sm_degrain_prefilter else none

/-- The argument passed for `NR_TR` (script_generator.rs line 295): always
present for the SMDegrain method, with no default comparison. -/
def nrTrArg (nr : NoiseReductionParameters) : Option Int := some nr.sm_degrain_tr

/-- The argument passed for `NR_SIGMA` (script_generator.rs line 309): always
present for the MCTemporalDenoise method, with no default comparison. -/
def nrSigmaArg (nr : NoiseReductionParameters) : Option ℚ := some nr.mc_temporal_sigma

/-- The argument passed for `COLOR_BRIGHTNESS` (script_generator.rs line 511):
present only when it deviates from the documented default 0. -/
def colorBrightnessArg (c : ColorCorrectionParameters) : Option ℚ :=
  if c.brightness ≠ 0 then some c.brightness else none

/-- The argument passed for `SHARPEN_STRENGTH` (script_generator.rs line 431):
always present for the LSFmod method, with no default comparison. -/
def sharpenStrengthArg (sp : SharpenParameters) : Option Int := some sp.strength

/-- The argument passed for `DEHALO_RX` (script_generator.rs line 358): always
present for the non-YAHR methods, with no default comparison. -/
def dehaloRxArg (dh : DehaloParameters) : Option ℚ := some dh.rx

/-- PRE-CROP section (script_generator.rs, lines 160-174). -/
def preCropPass (pl : RestorationPipeline) (script : List Char) : List Char :=
  let crop := pl.crop_resize
  if crop.enabled ∧ crop.crop_enabled ∧
      (crop.crop_left > 0 ∨ crop.crop_right > 0 ∨ crop.crop_top > 0 ∨ crop.crop_bottom > 0) then
    let s := rmTags (chars "PRE_CROP") script
    let s := replaceAll (placeholderOf (chars "CROP_LEFT")) (intToStr crop.crop_left) s
    let s := replaceAll (placeholderOf (chars "CROP_RIGHT")) (intToStr crop.crop_right) s
    let s := replaceAll (placeholderOf (chars "CROP_TOP")) (intToStr crop.crop_top) s
    replaceAll (placeholderOf (chars "CROP_BOTTOM")) (intToStr crop.crop_bottom) s
  else
    rmBlockN (chars "PRE_CROP") script

/-- DEINTERLACE substitutions, part 1 (script_generator.rs, lines 180-198):
markers, preset, input/output and quality parameters. -/
def deinterlaceSubst1 (params : QTGMCParameters) (script : List Char) : List Char :=
    let s := rmTags (chars "DEINTERLACE") script
    let s := replaceAll (placeholderOf (chars "PRESET")) params.preset.asStr s
    let s := process_optional_bool (chars "TFF") params.tff s
    let s := process_optional_int (chars "INPUT_TYPE")
      (if params.input_type ≠ 0 then some params.input_type else none) s
    let s := process_optional_int (chars "FPS_DIVISOR") (fpsDivisorArg params) s
    let s := process_optional_int (chars "TR0") params.tr0 s
    let s := process_optional_int (chars "TR1") params.tr1 s
    let s := process_optional_int (chars "TR2") params.tr2 s
    let s := process_optional_int (chars "REP0") params.rep0 s
    let s := process_optional_int (chars "REP1")
      (if params.rep1 ≠ 0 then some params.rep1 else none) s
    let s := process_optional_int (chars "REP2") params.rep2 s
    process_optional_bool (chars "REP_CHROMA")
      (if ¬params.rep_chroma then some false else none) s

/-- DEINTERLACE substitutions, part 2 (script_generator.rs, lines 200-223):
interpolation and motion-analysis parameters. -/
def deinterlaceSubst2 (params : QTGMCParameters) (script : List Char) : List Char :=
    let s := process_optional_string (chars "EDI_MODE") params.edi_mode script
    let s := process_optional_int (chars "NN_SIZE") params.nn_size s
    let s := process_optional_int (chars "NN_NEURONS") params.nn_neurons s
    let s := process_optional_int (chars "EDI_QUAL")
      (if params.edi_qual ≠ 1 then some params.edi_qual else none) s
    let s := process_optional_int (chars "EDI_MAX_D") params.edi_max_d s
    let s := process_optional_string (chars "CHROMA_EDI")
      (if params.chroma_edi = [] then none else some params.chroma_edi) s
    let s := process_optional_int (chars "BLOCK_SIZE") params.block_size s
    let s := process_optional_int (chars "OVERLAP") params.overlap s
    let s := process_optional_int (chars "SEARCH") params.search s
    let s := process_optional_int (chars "SEARCH_PARAM") params.search_param s
    let s := process_optional_int (chars "PEL_SEARCH") params.pel_search s
    let s := process_optional_bool (chars "CHROMA_MOTION") params.chroma_motion s
    let s := process_optional_bool (chars "TRUE_MOTION")
      (if params.true_motion then some true else none) s
    let s := process_optional_int (chars "LAMBDA") params.lambda s
    let s := process_optional_int (chars "LSAD") params.lsad s
    let s := process_optional_int (chars "P_NEW") params.p_new s
    let s := process_optional_int (chars "P_LEVEL") params.p_level s
    let s := process_optional_bool (chars "GLOBAL_MOTION")
      (if ¬params.global_motion then some false else none) s
    let s := process_optional_int (chars "DCT")
      (if params.dct ≠ 0 then some params.dct else none) s
    let s := process_optional_int (chars "SUB_PEL") params.sub_pel s
    process_optional_int (chars "SUB_PEL_INTERP")
      (if params.sub_pel_interp ≠ 2 then some params.sub_pel_interp else none) s

/-- DEINTERLACE substitutions, part 3 (script_generator.rs, lines 225-239):
threshold and sharpening parameters. -/
def deinterlaceSubst3 (params : QTGMCParameters) (script : List Char) : List Char :=
    let s := process_optional_int (chars "TH_SAD1") (thSad1Arg params) script
    let s := process_optional_int (chars "TH_SAD2")
      (if params.th_sad2 ≠ 256 then some params.th_sad2 else none) s
    let s := process_optional_int (chars "TH_SCD1")
      (if params.th_scd1 ≠ 180 then some params.th_scd1 else none) s
    let s := process_optional_int (chars "TH_SCD2")
      (if params.th_scd2 ≠ 98 then some params.th_scd2 else none) s
    let s := process_optional_double (chars "SHARPNESS") params.sharpness s
    let s := process_optional_int (chars "S_MODE") params.s_mode s
    let s := process_optional_int (chars "SL_MODE") params.sl_mode s
    let s := process_optional_int (chars "SL_RAD") params.sl_rad s
    let s := process_optional_int (chars "S_OVS")
      (if params.s_ovs ≠ 0 then some params.s_ovs else none) s
    let s := process_optional_double (chars "SV_THIN")
      (if params.sv_thin ≠ 0 then some params.sv_thin else none) s
    let s := process_optional_int (chars "SBB") params.sbb s
    process_optional_int (chars "SRCH_CLIP_PP") params.srch_clip_pp s

/-- DEINTERLACE substitutions, part 4 (script_generator.rs, lines 241-257):
noise-processing parameters. -/
def deinterlaceSubst4 (params : QTGMCParameters) (script : List Char) : List Char :=
    let s := process_optional_int (chars "NOISE_PROCESS") params.noise_process script
    let s := process_optional_double (chars "EZ_DENOISE") params.ez_denoise s
    let s := process_optional_double (chars "EZ_KEEP_GRAIN") params.ez_keep_grain s
    let s := process_optional_string (chars "NOISE_PRESET")
      (if params.noise_preset ≠ chars "Fast" then some params.noise_preset else none) s
    let s := process_optional_string (chars "DENOISER") params.denoiser s
    let s := process_optional_int (chars "FFT_THREADS")
      (if params.fft_threads ≠ 1 then some params.fft_threads else none) s
    let s := process_optional_bool (chars "DENOISE_MC") params.denoise_mc s
    let s := process_optional_int (chars "NOISE_TR") params.noise_tr s
    let s := process_optional_double (chars "SIGMA") params.sigma s
    let s := process_optional_bool (chars "CHROMA_NOISE")
      (if params.chroma_noise then some true else none) s
    let s := process_optional_double (chars "SHOW_NOISE")
      (if params.show_noise ≠ 0 then some params.show_noise else none) s
    let s := process_optional_double (chars "GRAIN_RESTORE") params.grain_restore s
    let s := process_optional_double (chars "NOISE_RESTORE") params.noise_restore s
    let s := process_optional_string (chars "NOISE_DEINT") params.noise_deint s
    process_optional_bool (chars "STABILIZE_NOISE") params.stabilize_noise s

/-- DEINTERLACE substitutions, part 5 (script_generator.rs, lines 259-275):
source-matching, advanced and GPU parameters. -/
def deinterlaceSubst5 (params : QTGMCParameters) (script : List Char) : List Char :=
    let s := process_optional_int (chars "SOURCE_MATCH")
      (if params.source_match ≠ 0 then some params.source_match else none) script
    let s := process_optional_string (chars "MATCH_PRESET") params.match_preset s
    let s := process_optional_string (chars "MATCH_EDI") params.match_edi s
    let s := process_optional_string (chars "MATCH_PRESET2") params.match_preset2 s
    let s := process_optional_string (chars "MATCH_EDI2") params.match_edi2 s
    let s := process_optional_int (chars "MATCH_TR2")
      (if params.match_tr2 ≠ 1 then some params.match_tr2 else none) s
    let s := process_optional_double (chars "MATCH_ENHANCE")
      (if qabs (qsub params.match_enhance qHalf) > qMilli
        then some params.match_enhance else none) s
    let s := process_optional_int (chars "LOSSLESS")
      (if params.lossless ≠ 0 then some params.lossless else none) s
    let s := process_optional_bool (chars "BORDER")
      (if params.border then some true else none) s
    let s := process_optional_bool (chars "PRECISE") params.precise s
    let s := process_optional_int (chars "FORCE_TR")
      (if params.force_tr ≠ 0 then some params.force_tr else none) s
    let s := process_optional_bool (chars "OPENCL") (some params.opencl) s
    process_optional_int (chars "DEVICE") params.device s

/-- DEINTERLACE (QTGMC) section (script_generator.rs, lines 176-278): the
five substitution parts above, applied in source order.  Note that the
enable test reads `pipeline.deinterlace.enabled` while every parameter
value is read from `job.qtgmc_parameters` (bound to `params` at the top of
the Rust function). -/
def deinterlacePass (params : QTGMCParameters) (pl : RestorationPipeline)
    (script : List Char) : List Char :=
  if pl.deinterlace.enabled then
    deinterlaceSubst5 params
      (deinterlaceSubst4 params
        (deinterlaceSubst3 params
          (deinterlaceSubst2 params (deinterlaceSubst1 params script))))
  else
    rmBlockN (chars "DEINTERLACE") script

/-- NOISE REDUCTION section (script_generator.rs, lines 280-320). -/
def noiseReductionPass (pl : RestorationPipeline) (script : List Char) : List Char :=
  let nr := pl.noise_reduction
  if nr.enabled then
    let s := rmTags (chars "NOISE_REDUCTION") script
    match nr.method with
    | .SmDegrain =>
      let s := rmTags (chars "NR_SMDEGRAIN") s
      let s := rmBlockN (chars "NR_MCTD") s
      let s := rmBlockN (chars "NR_BM3D") s
      let s := process_optional_int (chars "NR_TR") (nrTrArg nr) s
      let s := process_optional_int (chars "NR_TH_SAD") (some nr.sm_degrain_th_sad) s
      let s := process_optional_int (chars "NR_TH_SADC")
        (if nr.sm_degrain_th_sadc ≠ nr.sm_degrain_th_sad then some nr.sm_degrain_th_sadc else none) s
      let s := process_optional_bool (chars "NR_REFINE_MOTION") (some nr.sm_degrain_refine) s
      let s := process_optional_int (chars "NR_PREFILTER") (nrPrefilterArg nr) s
      process_optional_bool (chars "NR_CONTRASHARP") none s
    | .McTemporalDenoise =>
      let s := rmBlockN (chars "NR_SMDEGRAIN") s
      let s := rmTags (chars "NR_MCTD") s
      let s := rmBlockN (chars "NR_BM3D") s
      let s := process_optional_double (chars "NR_SIGMA") (nrSigmaArg nr) s
      process_optional_int (chars "NR_RADIUS") (some nr.mc_temporal_radius) s
    | .QtgmcBuiltin =>
      let s := rmBlockN (chars "NR_SMDEGRAIN") s
      let s := rmBlockN (chars "NR_MCTD") s
      rmBlockN (chars "NR_BM3D") s
  else
    rmBlockN (chars "NOISE_REDUCTION") script

/-- DEHALO section (script_generator.rs, lines 322-364). -/
def dehaloPass (pl : RestorationPipeline) (script : List Char) : List Char :=
  let dehalo := pl.dehalo
  if dehalo.enabled then
    let s := rmTags (chars "DEHALO") script
    let s :=
      match dehalo.method with
      | .DehaloAlpha =>
        let s := rmTags (chars "DEHALO_DEHALO_ALPHA") s
        let s := rmBlockN (chars "DEHALO_FINE_DEHALO") s
        rmBlockN (chars "DEHALO_YAHR") s
      | .FineDehalo =>
        let s := rmBlockN (chars "DEHALO_DEHALO_ALPHA") s
        let s := rmTags (chars "DEHALO_FINE_DEHALO") s
        let s := rmBlockN (chars "DEHALO_YAHR") s
        let s := process_optional_int (chars "DEHALO_LOW_THRESHOLD") (some dehalo.low_threshold) s
        process_optional_int (chars "DEHALO_HIGH_THRESHOLD") (some dehalo.high_threshold) s
      | .Yahr =>
        let s := rmBlockN (chars "DEHALO_DEHALO_ALPHA") s
        let s := rmBlockN (chars "DEHALO_FINE_DEHALO") s
        let s := rmTags (chars "DEHALO_YAHR") s
        let s := process_optional_int (chars "DEHALO_YAHR_BLUR") (some dehalo.yahr_blur) s
        process_optional_int (chars "DEHALO_YAHR_DEPTH") (some dehalo.yahr_depth) s
    if dehalo.method ≠ .Yahr then
      let s := process_optional_double (chars "DEHALO_RX") (dehaloRxArg dehalo) s
      let s := process_optional_double (chars "DEHALO_RY") (some dehalo.ry) s
      let s := process_optional_double (chars "DEHALO_DARKSTR") (some dehalo.dark_str) s
      process_optional_double (chars "DEHALO_BRIGHTSTR") (some dehalo.bright_str) s
    else s
  else
    rmBlockN (chars "DEHALO") script

/-- DEBLOCK section (script_generator.rs, lines 366-395). -/
def deblockPass (pl : RestorationPipeline) (script : List Char) : List Char :=
  let deblock := pl.deblock
  if deblock.enabled then
    let s := rmTags (chars "DEBLOCK") script
    match deblock.method with
    | .DeblockQed =>
      let s := rmTags (chars "DEBLOCK_QED") s
      let s := rmBlockN (chars "DEBLOCK_SIMPLE") s
      let s := process_optional_int (chars "DEBLOCK_QUANT1") (some deblock.quant1) s
      let s := process_optional_int (chars "DEBLOCK_QUANT2") (some deblock.quant2) s
      let s := process_optional_int (chars "DEBLOCK_AOFFSET1") (some deblock.a_offset1) s
      process_optional_int (chars "DEBLOCK_AOFFSET2") (some deblock.a_offset2) s
    | .Deblock =>
      let s := rmBlockN (chars "DEBLOCK_QED") s
      let s := rmTags (chars "DEBLOCK_SIMPLE") s
      process_optional_int (chars "DEBLOCK_QUANT1") (some deblock.quant1) s
  else
    rmBlockN (chars "DEBLOCK") script

/-- DEBAND section (script_generator.rs, lines 397-415): every parameter is
passed as `Some(...)`, with no comparison against the documented defaults. -/
def debandPass (pl : RestorationPipeline) (script : List Char) : List Char :=
  let deband := pl.deband
  if deband.enabled then
    let s := rmTags (chars "DEBAND") script
    let s := process_optional_int (chars "DEBAND_RANGE") (debandRangeArg deband) s
    let s := process_optional_int (chars "DEBAND_Y") (some deband.y) s
    let s := process_optional_int (chars "DEBAND_CB") (some deband.cb) s
    let s := process_optional_int (chars "DEBAND_CR") (some deband.cr) s
    let s := process_optional_int (chars "DEBAND_GRAINY") (some deband.grain_y) s
    let s := process_optional_int (chars "DEBAND_GRAINC") (some deband.grain_c) s
    let s := process_optional_bool (chars "DEBAND_DYNAMIC_GRAIN") (some deband.dynamic_grain) s
    process_optional_int (chars "DEBAND_OUTPUT_DEPTH") (some deband.output_depth) s
  else
    rmBlockN (chars "DEBAND") script

/-- SHARPEN section (script_generator.rs, lines 417-446). -/
def sharpenPass (pl : RestorationPipeline) (script : List Char) : List Char :=
  let sharpen := pl.sharpen
  if sharpen.enabled then
    let s := rmTags (chars "SHARPEN") script
    match sharpen.method with
    | .LSFmod =>
      let s := rmTags (chars "SHARPEN_LSFMOD") s
      let s := rmBlockN (chars "SHARPEN_CAS") s
      let s := process_optional_int (chars "SHARPEN_STRENGTH") (sharpenStrengthArg sharpen) s
      let s := process_optional_int (chars "SHARPEN_OVERSHOOT") (some sharpen.overshoot) s
      let s := process_optional_int (chars "SHARPEN_UNDERSHOOT") (some sharpen.undershoot) s
      process_optional_int (chars "SHARPEN_SOFT_EDGE") (some sharpen.soft_edge) s
    | .CAS =>
      let s := rmBlockN (chars "SHARPEN_LSFMOD") s
      let s := rmTags (chars "SHARPEN_CAS") s
      process_optional_double (chars "SHARPEN_CAS_SHARPNESS") (some sharpen.cas_sharpness) s
  else
    rmBlockN (chars "SHARPEN") script

/-- CHROMA FIXES section (script_generator.rs, lines 448-492). -/
def chromaFixesPass (pl : RestorationPipeline) (script : List Char) : List Char :=
  let chroma := pl.chroma_fixes
  if chroma.enabled then
    let s := rmTags (chars "CHROMA_FIXES") script
    let s :=
      if chroma.apply_chroma_bleeding_fix then
        let s := rmTags (chars "CHROMA_FIX_BLEEDING") s
        let s := process_optional_int (chars "CHROMA_CX") (some chroma.chroma_bleed_cx) s
        let s := process_optional_int (chars "CHROMA_CY") (some chroma.chroma_bleed_cy) s
        let s := process_optional_double (chars "CHROMA_THR") (some chroma.chroma_bleed_c_blur) s
        process_optional_double (chars "CHROMA_STRENGTH") (some chroma.chroma_bleed_strength) s
      else
        rmBlockN (chars "CHROMA_FIX_BLEEDING") s
    let s :=
      if chroma.apply_de_crawl then
        let s := rmTags (chars "CHROMA_DECRAWL") s
        let s := process_optional_int (chars "DECRAWL_YTHRESH") (some chroma.de_crawl_y_thresh) s
        let s := process_optional_int (chars "DECRAWL_CTHRESH") (some chroma.de_crawl_c_thresh) s
        process_optional_int (chars "DECRAWL_MAXDIFF") (some chroma.de_crawl_max_diff) s
      else
        rmBlockN (chars "CHROMA_DECRAWL") s
    if chroma.apply_vinverse then
      let s := rmTags (chars "CHROMA_VINVERSE") s
      let s := process_optional_double (chars "VINVERSE_SSTR") (some chroma.vinverse_sstr) s
      process_optional_int (chars "VINVERSE_AMNT") (some chroma.vinverse_amnt) s
    else
      rmBlockN (chars "CHROMA_VINVERSE") s
  else
    rmBlockN (chars "CHROMA_FIXES") script

/-- COLOR CORRECTION section (script_generator.rs, lines 494-539). -/
def colorCorrectionPass (pl : RestorationPipeline) (script : List Char) : List Char :=
  let color := pl.color_correction
  if color.enabled then
    let s := rmTags (chars "COLOR_CORRECTION") script
    let hasTweak := qabs (qsub color.brightness 0) > qMilli ∨
      qabs (qsub color.contrast 1) > qMilli ∨
      qabs (qsub color.saturation 1) > qMilli ∨
      qabs (qsub color.hue 0) > qMilli
    let s :=
      if hasTweak then
        let s := rmTags (chars "COLOR_TWEAK") s
        let s := process_optional_double (chars "COLOR_BRIGHTNESS") (colorBrightnessArg color) s
        let s := process_optional_double (chars "COLOR_CONTRAST")
          (if color.contrast ≠ 1 then some color.contrast else none) s
        let s := process_optional_double (chars "COLOR_SATURATION")
          (if color.saturation ≠ 1 then some color.saturation else none) s
        process_optional_double (chars "COLOR_HUE")
          (if color.hue ≠ 0 then some color.hue else none) s
      else
        rmBlockN (chars "COLOR_TWEAK") s
    let hasLevels := color.input_low ≠ 0 ∨ color.input_high ≠ 255 ∨
      color.output_low ≠ 0 ∨ color.output_high ≠ 255 ∨
      qabs (qsub color.gamma 1) > qMilli
    if hasLevels then
      let s := rmTags (chars "COLOR_LEVELS") s
      let s := process_optional_int (chars "LEVELS_INPUT_LOW")
        (if color.input_low ≠ 0 then some color.input_low else none) s
      let s := process_optional_int (chars "LEVELS_INPUT_HIGH")
        (if color.input_high ≠ 255 then some color.input_high else none) s
      let s := process_optional_int (chars "LEVELS_OUTPUT_LOW")
        (if color.output_low ≠ 0 then some color.output_low else none) s
      let s := process_optional_int (chars "LEVELS_OUTPUT_HIGH")
        (if color.output_high ≠ 255 then some color.output_high else none) s
      process_optional_double (chars "LEVELS_GAMMA")
        (if qabs (qsub color.gamma 1) > qMilli then some color.gamma else none) s
    else
      rmBlockN (chars "COLOR_LEVELS") s
  else
    rmBlockN (chars "COLOR_CORRECTION") script

/-- RESIZE section (script_generator.rs, lines 541-631). -/
def resizePass (pl : RestorationPipeline) (script : List Char) : List Char :=
  let resize := pl.crop_resize
  if resize.enabled ∧ (resize.resize_enabled ∨ resize.use_integer_upscale) then
    let s := rmTags (chars "RESIZE") script
    let s :=
      if resize.use_integer_upscale then
        let s := rmTags (chars "RESIZE_INTEGER_UPSCALE") s
        let s := replaceAll (placeholderOf (chars "UPSCALE_FACTOR")) (intToStr resize.upscale_factor) s
        match resize.upscale_method with
        | .Nnedi3Rpow2 =>
          let s := rmTags (chars "UPSCALE_NNEDI3") s
          rmBlockN (chars "UPSCALE_EEDI3") s
        | .Eedi3Rpow2 =>
          let s := rmBlockN (chars "UPSCALE_NNEDI3") s
          rmTags (chars "UPSCALE_EEDI3") s
        | .Spline36 =>
          let s := rmBlockN (chars "UPSCALE_NNEDI3") s
          rmBlockN (chars "UPSCALE_EEDI3") s
      else
        rmBlockN (chars "RESIZE_INTEGER_UPSCALE") s
    if resize.resize_enabled then
      let s := rmTags (chars "RESIZE_STANDARD") s
      let width := resize.target_width.getD (-1)
      let height := resize.target_height.getD (-1)
      let s := replaceAll (placeholderOf (chars "TARGET_WIDTH")) (intToStr width) s
      let s := replaceAll (placeholderOf (chars "TARGET_HEIGHT")) (intToStr height) s
      let s :=
        if resize.maintain_aspect then rmTags (chars "MAINTAIN_ASPECT") s
        else rmBlockN (chars "MAINTAIN_ASPECT") s
      match resize.kernel with
      | .Spline36 | .Nnedi3 | .Eedi3 =>
        let s := rmTags (chars "RESIZE_SPLINE36") s
        let s := rmBlockN (chars "RESIZE_LANCZOS") s
        let s := rmBlockN (chars "RESIZE_BICUBIC") s
        rmBlockN (chars "RESIZE_BILINEAR") s
      | .Lanczos =>
        let s := rmBlockN (chars "RESIZE_SPLINE36") s
        let s := rmTags (chars "RESIZE_LANCZOS") s
        let s := rmBlockN (chars "RESIZE_BICUBIC") s
        rmBlockN (chars "RESIZE_BILINEAR") s
      | .Bicubic =>
        let s := rmBlockN (chars "RESIZE_SPLINE36") s
        let s := rmBlockN (chars "RESIZE_LANCZOS") s
        let s := rmTags (chars "RESIZE_BICUBIC") s
        rmBlockN (chars "RESIZE_BILINEAR") s
      | .Bilinear =>
        let s := rmBlockN (chars "RESIZE_SPLINE36") s
        let s := rmBlockN (chars "RESIZE_LANCZOS") s
        let s := rmBlockN (chars "RESIZE_BICUBIC") s
        rmTags (chars "RESIZE_BILINEAR") s
    else
      rmBlockN (chars "RESIZE_STANDARD") s
  else
    rmBlockN (chars "RESIZE") script

/-- Model of `substitute_parameters_on` (script_generator.rs, lines 156-634):
the stage sections applied in source order. -/
def substitute_parameters_on (script : List Char) (job : VideoJob)
    (pl : RestorationPipeline) : List Char :=
  let params := job.qtgmc_parameters
  let s := preCropPass pl script
  let s := deinterlacePass params pl s
  let s := noiseReductionPass pl s
  let s := dehaloPass pl s
  let s := deblockPass pl s
  let s := debandPass pl s
  let s := sharpenPass pl s
  let s := chromaFixesPass pl s
  let s := colorCorrectionPass pl s
  resizePass pl s

/-- Escape backslashes for Python (`path.replace('\\', "\\\\")`). -/
def escapeBackslashes (s : List Char) : List Char :=
  replaceAll ['\\'] ['\\', '\\'] s

/-- Model of `substitute_parameters` (script_generator.rs, lines 144-153):
substitute the escaped input path, then run the stage substitutions. -/
def substitute_parameters (template : List Char) (job : VideoJob)
    (pl : RestorationPipeline) : List Char :=
  let s := replaceAll (placeholderOf (chars "INPUT_PATH")) (escapeBackslashes job.input_path) template
  substitute_parameters_on s job pl

/-! ## The embedded templates and `generate` (script_generator.rs, lines 42-56, 636-673)

`generate` renders `substitute_parameters` over the loaded template and
writes the result to a temp file; the template is loaded from a search path
or falls back to the embedded one.  The embedded primary template is
reproduced verbatim below; the rendered script content (the part of
`generate` visible to this verification — the file write is I/O) is
modelled by `generateScriptContent`. -/

/-- The embedded fallback primary template (script_generator.rs, lines 638-672), verbatim. -/
def embeddedTemplateStr : String := "import vapoursynth as vs\nimport sys\n\ncore = vs.core\n\n# Load input video using ffms2 for frame-accurate seeking\nclip = core.ffms2.Source(source=r\"\x7b\x7bINPUT_PATH\x7d\x7d\")\n\n# Get input properties for progress tracking\ninput_fps_num = clip.fps.numerator\ninput_fps_den = clip.fps.denominator\ntotal_frames = clip.num_frames\nprint(f\"INPUT_INFO:frames=\x7btotal_frames\x7d,fps_num=\x7binput_fps_num\x7d,fps_den=\x7binput_fps_den\x7d\", file=sys.stderr)\n\n# Import havsfunc for QTGMC\nimport havsfunc as haf\n\n# Apply QTGMC deinterlacing\nclip = haf.QTGMC(\n    clip,\n    Preset=\"\x7b\x7bPRESET\x7d\x7d\",\n\x7b\x7b#TFF\x7d\x7d\n    TFF=\x7b\x7bTFF\x7d\x7d,\n\x7b\x7b/TFF\x7d\x7d\n\x7b\x7b#FPS_DIVISOR\x7d\x7d\n    FPSDivisor=\x7b\x7bFPS_DIVISOR\x7d\x7d,\n\x7b\x7b/FPS_DIVISOR\x7d\x7d\n\x7b\x7b#OPENCL\x7d\x7d\n    opencl=\x7b\x7bOPENCL\x7d\x7d,\n\x7b\x7b/OPENCL\x7d\x7d\n)\n\n# Output the processed clip\nclip.set_output()\n"

/-- The embedded fallback primary template as a character list. -/
def embeddedTemplate : List Char := embeddedTemplateStr.toList

/-- The rendered script content produced by `generate` when the loaded
template is the embedded fallback: `substitute_parameters` applied to the
job's effective pipeline. -/
def generateScriptContent (job : VideoJob) : List Char :=
  substitute_parameters embeddedTemplate job job.effective_pipeline

/-- The DEBAND section of the embedded preview template
(script_generator.rs, lines 836-862), verbatim; on-disk template files are
loaded from a search path, so the engine must handle any template text. -/
def debandSectionTemplateStr : String := "# PASS 6: DEBAND\n\x7b\x7b#DEBAND\x7d\x7d\nclip = core.neo_f3kdb.Deband(\n    clip,\n\x7b\x7b#DEBAND_RANGE\x7d\x7d\n    range=\x7b\x7bDEBAND_RANGE\x7d\x7d,\n\x7b\x7b/DEBAND_RANGE\x7d\x7d\n\x7b\x7b#DEBAND_Y\x7d\x7d\n    y=\x7b\x7bDEBAND_Y\x7d\x7d,\n\x7b\x7b/DEBAND_Y\x7d\x7d\n\x7b\x7b#DEBAND_CB\x7d\x7d\n    cb=\x7b\x7bDEBAND_CB\x7d\x7d,\n\x7b\x7b/DEBAND_CB\x7d\x7d\n\x7b\x7b#DEBAND_CR\x7d\x7d\n    cr=\x7b\x7bDEBAND_CR\x7d\x7d,\n\x7b\x7b/DEBAND_CR\x7d\x7d\n\x7b\x7b#DEBAND_GRAINY\x7d\x7d\n    grainy=\x7b\x7bDEBAND_GRAINY\x7d\x7d,\n\x7b\x7b/DEBAND_GRAINY\x7d\x7d\n\x7b\x7b#DEBAND_GRAINC\x7d\x7d\n    grainc=\x7b\x7bDEBAND_GRAINC\x7d\x7d,\n\x7b\x7b/DEBAND_GRAINC\x7d\x7d\n\x7b\x7b#DEBAND_OUTPUT_DEPTH\x7d\x7d\n    output_depth=\x7b\x7bDEBAND_OUTPUT_DEPTH\x7d\x7d,\n\x7b\x7b/DEBAND_OUTPUT_DEPTH\x7d\x7d\n)\n\x7b\x7b/DEBAND\x7d\x7d\n"

/-- The DEBAND section template as a character list. -/
def debandSectionTemplate : List Char := debandSectionTemplateStr.toList

/-! ## Concrete jobs and pipelines used as test inputs -/

/-- A pipeline with every stage disabled (deinterlace included). -/
def pipelineAllDisabled : RestorationPipeline where
  deinterlace := { QTGMCParameters.default with enabled := false }
  noise_reduction := NoiseReductionParameters.default
  dehalo := DehaloParameters.default
  deblock := DeblockParameters.default
  deband := DebandParameters.default
  sharpen := SharpenParameters.default
  color_correction := ColorCorrectionParameters.default
  chroma_fixes := ChromaFixParameters.default
  crop_resize := CropResizeParameters.default

/-- A base job: default legacy QTGMC parameters, no multi-stage pipeline. -/
def jobBase : VideoJob where
  id := chars "job-1"
  input_path := chars "input.mp4"
  output_path := chars "out.mp4"
  qtgmc_parameters := QTGMCParameters.default
  restoration_pipeline := none
  encoding_settings := EncodingSettings.default
  detected_field_order := none
  total_frames := none
  input_frame_rate := none

/-- A job whose effective pipeline has the deinterlace stage disabled. -/
def jobAllDisabled : VideoJob :=
  { jobBase with restoration_pipeline := some pipelineAllDisabled }

/-- A job with default QTGMC parameters and `fps_divisor = 2` (deviating
from the documented default 1). -/
def jobDiv2 : VideoJob :=
  { jobBase with qtgmc_parameters := { QTGMCParameters.default with fps_divisor := 2 } }

/-- A pipeline in which only the deband stage is enabled, with all deband
parameters at their documented defaults (`range = 15`, ...). -/
def pipelineDebandDefault : RestorationPipeline :=
  { pipelineAllDisabled with deband := { DebandParameters.default with enabled := true } }

/-- The job carrying `pipelineDebandDefault`. -/
def jobDebandDefault : VideoJob :=
  { jobBase with restoration_pipeline := some pipelineDebandDefault }

/-- Like `pipelineDebandDefault` but with `range = 20` (off-default). -/
def pipelineDebandRange20 : RestorationPipeline :=
  { pipelineAllDisabled with
      deband := { DebandParameters.default with enabled := true, range := 20 } }

/-- The job carrying `pipelineDebandRange20`. -/
def jobDebandRange20 : VideoJob :=
  { jobBase with restoration_pipeline := some pipelineDebandRange20 }

/-! ## The pipeline executor (src/worker/src/pipeline_executor.rs) and the
worker driver (src/worker/src/main.rs)

The executor spawns `vspipe | ffmpeg`, reads vspipe's stderr on a
background thread (recovering the reported total-frame count from
`INPUT_INFO:` sentinel lines into an atomic, initialised to 0), and drives
ffmpeg's stderr on the calling thread, checking the cancellation predicate
once per line, updating the current frame / fps from `frame=` / `fps=`
tokens, and emitting throttled progress events.  Wall-clock throttling and
thread interleaving are not statable in a shallow embedding; the model
exposes (a) the per-line state updates, (b) the progress-event computation
given the values visible at an emission, (c) the cancellation/exit-code
control flow of `execute`, and (d) `run_worker` / `main`'s handling of the
result.  `f64` parsing is modelled on ℚ for plain decimal literals (the
only shapes the sentinel lines carry). -/

/-- Whitespace test used by `split_whitespace` / `trim` (ASCII fragment). -/
def isWs (c : Char) : Bool := c == ' ' || c == '\t' || c == '\n' || c == '\r'

/-- Worker for `splitWs`. -/
def splitWsGo : List Char → List Char → List (List Char)
  | [], acc => if acc = [] then [] else [acc.reverse]
  | c :: t, acc =>
    if isWs c then
      if acc = [] then splitWsGo t [] else acc.reverse :: splitWsGo t []
    else splitWsGo t (c :: acc)

/-- Model of `str::split_whitespace` (no empty items). -/
def splitWs (s : List Char) : List (List Char) := splitWsGo s []

/-- Model of `str::strip_prefix`. -/
def stripPre (pat s : List Char) : Option (List Char) :=
  if isPre pat s then some (s.drop pat.length) else none

/-- Model of `str::trim`. -/
def trimStr (s : List Char) : List Char :=
  ((s.dropWhile (fun c => isWs c)).reverse.dropWhile (fun c => isWs c)).reverse

/-- Worker for `splitOnComma`. -/
def splitOnCommaGo : List Char → List Char → List (List Char)
  | [], acc => [acc.reverse]
  | c :: t, acc =>
    if c == ',' then acc.reverse :: splitOnCommaGo t []
    else splitOnCommaGo t (c :: acc)

/-- Model of `str::split(',')` (keeps empty items). -/
def splitOnComma (s : List Char) : List (List Char) := splitOnCommaGo s []

/-- Decimal digit value. -/
def digitVal (c : Char) : Option Nat :=
  if '0' ≤ c ∧ c ≤ '9' then some (c.toNat - 48) else none

/-- Accumulating digit parser: `none` on any non-digit. -/
def parseNatGo : List Char → Nat → Option Nat
  | [], acc => some acc
  | c :: t, acc =>
    match digitVal c with
    | some d => parseNatGo t (acc * 10 + d)
    | none => none

/-- Model of `str::parse::<i32>()`: optional sign, one or more digits,
within the `i32` range. -/
def parseI32 (s : List Char) : Option Int :=
  match s with
  | [] => none
  | '+' :: t =>
    if t = [] then none
    else (parseNatGo t 0).bind fun n => if n ≤ 2147483647 then some (n : Int) else none
  | '-' :: t =>
    if t = [] then none
    else (parseNatGo t 0).bind fun n => if n ≤ 2147483648 then some (-(n : Int)) else none
  | _ => (parseNatGo s 0).bind fun n => if n ≤ 2147483647 then some (n : Int) else none

/-- Split at the first `'.'`, if any. -/
def breakDot (s : List Char) : List Char × Option (List Char) :=
  match findSub ['.'] s with
  | none => (s, none)
  | some i => (s.take i, some (s.drop (i + 1)))

/-- Unsigned plain decimal literal to ℚ. -/
def parseUnsignedDec (s : List Char) : Option ℚ :=
  let (ip, fp) := breakDot s
  if ip = [] ∧ (fp = none ∨ fp = some []) then none
  else
    (if ip = [] then some 0 else parseNatGo ip 0).bind fun n =>
      match fp with
      | none => some (n : ℚ)
      | some [] => some (n : ℚ)
      | some f => (parseNatGo f 0).map fun m =>
          mkRat ((n : Int) * 10 ^ f.length + (m : Int)) (10 ^ f.length)

/-- Model of `str::parse::<f64>()` restricted to plain decimal literals
(the shape of the `fps=` values; idealised to exact rationals). -/
def parseDecimal (s : List Char) : Option ℚ :=
  match s with
  | '-' :: t => (parseUnsignedDec t).map (fun q => -q)
  | '+' :: t => parseUnsignedDec t
  | _ => parseUnsignedDec s

/-- One vspipe-stderr line of the background reader
(pipeline_executor.rs, lines 103-120): an `INPUT_INFO:` line is split on
commas and each `frames=<i32>` part stores the parsed total. -/
def inputInfoStep (total : Int) (line : List Char) : Int :=
  if isPre (chars "INPUT_INFO:") line then
    (splitOnComma (line.drop 11)).foldl
      (fun acc part =>
        match stripPre (chars "frames=") part with
        | some fs =>
          match parseI32 fs with
          | some v => v
          | none => acc
        | none => acc)
      total
  else total

/-- The reported total after the background reader has consumed its lines
(the atomic counter is initialised to 0). -/
def totalFromVspipeLines (lines : List (List Char)) : Int :=
  lines.foldl inputInfoStep 0

/-- One ffmpeg-stderr line of the main loop's frame/fps updates
(pipeline_executor.rs, lines 137-156): a `frame=`-prefixed line updates the
current frame from its first whitespace-split token; any line containing
`fps=` updates the current rate from each `fps=`-prefixed token. -/
def ffmpegLineStep (st : Int × ℚ) (line : List Char) : Int × ℚ :=
  let cf :=
    if isPre (chars "frame=") line then
      match (splitWs line).head? with
      | some w =>
        match stripPre (chars "frame=") w with
        | some r =>
          match parseI32 (trimStr r) with
          | some f => f
          | none => st.1
        | none => st.1
      | none => st.1
    else st.1
  let cfps :=
    if containsSub (chars "fps=") line then
      (splitWs line).foldl
        (fun acc w =>
          match stripPre (chars "fps=") w with
          | some r =>
            match parseDecimal (trimStr r) with
            | some v => v
            | none => acc
          | none => acc)
        st.2
    else st.2
  (cf, cfps)

/-- Effective total frames at a progress emission
(pipeline_executor.rs, lines 160-166): a positive reported total is doubled
exactly when `fps_divisor == 1`, and the job's pre-known total is used only
when no positive total was reported. -/
def effectiveTotalFrames (reported : Int) (fpsDivisor : Int) (jobTotal : Option Int) : Int :=
  if reported > 0 then (if fpsDivisor = 1 then reported * 2 else reported)
  else jobTotal.getD 0

/-- ETA at a progress emission (pipeline_executor.rs, lines 168-172):
`(effectiveTotal - frame) / fps` when the rate is positive AND the
effective total exceeds the current frame, else 0. -/
def etaOf (fps : ℚ) (effTotal frame : Int) : ℚ :=
  if 0 < fps ∧ frame < effTotal then qdiv ((effTotal - frame : Int) : ℚ) fps else 0

/-- A progress event's payload (models/progress_info.rs, `ProgressInfo`). -/
structure ProgressInfo where
  frame : Int
  total_frames : Int
  fps : ℚ
  eta : ℚ
deriving DecidableEq

/-- The progress event computed at an emission (pipeline_executor.rs,
lines 158-176), given the job, the reported total visible in the atomic,
and the current frame/fps. -/
def progressEmission (job : VideoJob) (reported : Int) (frame : Int) (fps : ℚ) : ProgressInfo :=
  let eff := effectiveTotalFrames reported job.qtgmc_parameters.fps_divisor job.total_frames
  { frame := frame, total_frames := eff, fps := fps, eta := etaOf fps eff frame }

/-- `status.code().unwrap_or(-1)` (a signal-terminated process has no code). -/
def codeOf (c : Option Int) : Int := c.getD (-1)

/-- Whether an exit code is tolerated by `execute` (0, 130 or 141). -/
def toleratedCode (c : Int) : Bool := c == 0 || c == 130 || c == 141

/-- The exit-code policy of `execute` (pipeline_executor.rs, lines 198-212):
vspipe's status is checked first; a code other than 0/130/141 from either
process is a hard failure naming the process and the code. -/
def exitCodeCheck (vspipeCode ffmpegCode : Option Int) : Except (List Char) Unit :=
  let vc := codeOf vspipeCode
  if vc ≠ 0 ∧ vc ≠ 130 ∧ vc ≠ 141 then
    Except.error (chars "vspipe exited with code " ++ intToStr vc)
  else
    let fc := codeOf ffmpegCode
    if fc ≠ 0 ∧ fc ≠ 130 ∧ fc ≠ 141 then
      Except.error (chars "ffmpeg exited with code " ++ intToStr fc)
    else Except.ok ()

/-- The control flow of `execute`'s main loop and epilogue
(pipeline_executor.rs, lines 129-214): per ffmpeg-stderr line, first check
the cancellation predicate — if it fires, both children are killed
(`terminate`) and the run ends in the `"Job cancelled"` error without ever
reaching the exit-code check; otherwise update the frame/fps state.  After
the stream closes, the exit codes are checked.  Returns the run's result
and whether the children were killed. -/
def executeLoop (cancelAt : Nat → Bool) (vcode fcode : Option Int) :
    Nat → Int × ℚ → List (List Char) → Except (List Char) Unit × Bool
  | _, _, [] => (exitCodeCheck vcode fcode, false)
  | i, st, l :: rest =>
    if cancelAt i then (Except.error (chars "Job cancelled"), true)
    else executeLoop cancelAt vcode fcode (i + 1) (ffmpegLineStep st l) rest

/-- `execute`, modelled over the ffmpeg-stderr lines, the cancellation
predicate's value at each poll, and the two processes' exit codes. -/
def executeModel (cancelAt : Nat → Bool) (lines : List (List Char))
    (vcode fcode : Option Int) : Except (List Char) Unit × Bool :=
  executeLoop cancelAt vcode fcode 0 (0, 0) lines

/-- The tail of `run_worker` (main.rs, lines 181-206): `execute`'s error is
propagated by `result?` BEFORE the cancellation check, so the partial
output file is removed only when `execute` returned `Ok` while the
cancellation flag is set.  Returns (output file removed?, overall result:
the output path on success). -/
def runWorkerModel (execResult : Except (List Char) Unit) (cancelledFlag : Bool)
    (outputPath : List Char) : Bool × Except (List Char) (List Char) :=
  match execResult with
  | Except.error e => (false, Except.error e)
  | Except.ok () =>
    if cancelledFlag then (true, Except.error (chars "Job cancelled"))
    else (false, Except.ok outputPath)

/-- Worker-to-app events (models/progress_info.rs, `WorkerMessage`). -/
inductive Event
  | progress (info : ProgressInfo)
  | log (level : List Char) (message : List Char)
  | error (message : List Char)
  | complete (success : Bool) (outputPath : Option (List Char))
deriving DecidableEq

/-- The terminal events emitted by `main` (main.rs, lines 70-87): success
is `complete(true, path)`; an error whose text contains "cancelled" is
surfaced as an info log plus `complete(false)` (not as an `error` event);
any other error is an `error` event plus `complete(false)`. -/
def mainEvents (result : Except (List Char) (List Char)) : List Event :=
  match result with
  | Except.ok p => [Event.complete true (some p)]
  | Except.error e =>
    if containsSub (chars "cancelled") e then
      [Event.log (chars "info") (chars "Job cancelled by user"), Event.complete false none]
    else
      [Event.error e, Event.complete false none]

/-! ## Claim-side definitions

These definitions follow the words of spec claims that turn out to deviate
from the code; each is compared against the corresponding code-side
definition above. -/

/-- Claim side of C3 ("double ... exactly when the deinterlace stage runs in
a rate-doubling mode (fps divisor 1) and no independent total is already
known, and otherwise falls back to the job's pre-known total frame count"). -/
def effectiveTotalClaim (reported : Int) (fpsDivisor : Int) (jobTotal : Option Int) : Int :=
  if fpsDivisor = 1 ∧ jobTotal = none then reported * 2 else jobTotal.getD 0

/-- Claim side of C5 ("ETA equals (effectiveTotal − currentFrame) /
currentRate whenever currentRate > 0, and equals 0 when currentRate is not
positive", with no further condition). -/
def etaClaim (fps : ℚ) (effTotal frame : Int) : ℚ :=
  if 0 < fps then ((effTotal - frame : Int) : ℚ) / fps else 0

/-! ## Concrete strings for the block-removal claims -/

/-- A template in which the block of name `VAL` appears three times, each
followed by a newline, with no value supplied. -/
def tpl3 : List Char :=
  chars "a\n\x7b\x7b#VAL\x7d\x7d\nx=\x7b\x7bVAL\x7d\x7d\n\x7b\x7b/VAL\x7d\x7d\nb\n\x7b\x7b#VAL\x7d\x7d\ny=\x7b\x7bVAL\x7d\x7d\n\x7b\x7b/VAL\x7d\x7d\nb2\n\x7b\x7b#VAL\x7d\x7d\nz=\x7b\x7bVAL\x7d\x7d\n\x7b\x7b/VAL\x7d\x7d\nc"

/-- A degenerate template for name `X`: its single start-marker occurrence
(at index 2) is followed by an end marker, yet deleting that region splices
the leading `  "\x7b\x7b"  ` onto the trailing `"#X\x7d\x7d"`, creating a fresh
start marker with no end marker after it. -/
def spliceInput : List Char :=
  chars "\x7b\x7b\x7b\x7b#X\x7d\x7dy\x7b\x7b/X\x7d\x7d#X\x7d\x7drest"

/-- The `FPS_DIVISOR` block of the embedded primary template
(script_generator.rs, lines 662-664), verbatim. -/
def fpsDivisorBlock : List Char :=
  chars "\x7b\x7b#FPS_DIVISOR\x7d\x7d\n    FPSDivisor=\x7b\x7bFPS_DIVISOR\x7d\x7d,\n\x7b\x7b/FPS_DIVISOR\x7d\x7d\n"

/-- QTGMC parameters equal to the defaults except `fps_divisor = 2`. -/
def qtgmcDiv2 : QTGMCParameters :=
  { QTGMCParameters.default with fps_divisor := 2 }

/-- No complete marker-delimited region for `name` remains in `r`: the first
start-marker occurrence (if any) has no end marker at or after it. -/
def noFullBlock (name : List Char) (r : List Char) : Prop :=
  ∀ p, findSub (startTagOf name) r = some p → findSub (endTagOf name) (r.drop p) = none

/-! # Theorems -/

/-! ## Helper lemmas on the string primitives -/

theorem isPre_length {pat s : List Char} (h : isPre pat s = true) : pat.length ≤ s.length := by
  induction pat generalizing s with
  | nil => simp
  | cons a as ih =>
    cases s with
    | nil => simp [isPre] at h
    | cons b bs =>
      simp only [isPre, Bool.and_eq_true] at h
      simpa using ih h.2

theorem findSubGo_some {pat : List Char} :
    ∀ {s : List Char} {i j : Nat}, findSubGo pat s i = some j →
      ∃ k, j = i + k ∧ k ≤ s.length ∧ isPre pat (s.drop k) = true := by
  intro s
  induction s with
  | nil =>
    intro i j h
    simp only [findSubGo] at h
    split at h
    · next hpre =>
      obtain rfl := Option.some.inj h
      exact ⟨0, by omega, by simp, by simpa using hpre⟩
    · simp at h
  | cons c t ih =>
    intro i j h
    simp only [findSubGo] at h
    split at h
    · next hpre =>
      obtain rfl := Option.some.inj h
      exact ⟨0, by omega, by simp, by simpa using hpre⟩
    · obtain ⟨k, hk, hkle, hp⟩ := ih h
      exact ⟨k + 1, by omega, by simpa using hkle, by simpa using hp⟩

theorem findSub_some {pat s : List Char} {p : Nat} (h : findSub pat s = some p) :
    p ≤ s.length ∧ isPre pat (s.drop p) = true := by
  obtain ⟨k, hk, hkle, hp⟩ := findSubGo_some h
  exact ⟨by omega, by simpa [hk] using hp⟩

theorem findSub_bound {pat s : List Char} {p : Nat} (h : findSub pat s = some p) :
    p + pat.length ≤ s.length := by
  obtain ⟨hle, hp⟩ := findSub_some h
  have := isPre_length hp
  simp only [List.length_drop] at this
  omega

theorem revApp_eq : ∀ (l r : List Char), revApp l r = l.reverse ++ r := by
  intro l
  induction l with
  | nil => intro r; simp [revApp]
  | cons c t ih => intro r; simp [revApp, ih]

theorem revTake_eq : ∀ (n : Nat) (s acc : List Char),
    revTake n s acc = (s.take n).reverse ++ acc := by
  intro n
  induction n with
  | zero => intro s acc; simp [revTake]
  | succ n ih =>
    intro s acc
    cases s with
    | nil => simp [revTake]
    | cons c t => simp [revTake, ih]

theorem splice_eq (p : Nat) (s t : List Char) :
    revApp (revTake p s []) t = s.take p ++ t := by
  rw [revTake_eq, revApp_eq]
  simp

theorem splice_length_lt {startTag endTag s : List Char} (hend : 0 < endTag.length)
    {p q removeEnd : Nat} (hp : findSub startTag s = some p)
    (hq : findSub endTag (s.drop p) = some q)
    (hre : p + q + endTag.length ≤ removeEnd) :
    (revApp (revTake p s []) (s.drop removeEnd)).length < s.length := by
  have h1 := (findSub_some hp).1
  have h2 := findSub_bound hq
  simp only [List.length_drop] at h2
  rw [splice_eq]
  simp only [List.length_append, List.length_take, List.length_drop]
  omega

theorem removeBlockGo_succ_none {startTag endTag s : List Char} {fuel : Nat}
    (hp : findSub startTag s = none) :
    removeBlockGo startTag endTag (fuel + 1) s = s := by
  simp [removeBlockGo, hp]

theorem removeBlockGo_succ_break {startTag endTag s : List Char} {fuel : Nat} {p : Nat}
    (hp : findSub startTag s = some p) (hq : findSub endTag (s.drop p) = none) :
    removeBlockGo startTag endTag (fuel + 1) s = s := by
  simp [removeBlockGo, hp, hq]

theorem removeBlockGo_succ_step {startTag endTag s : List Char} {fuel : Nat} {p q : Nat}
    (hp : findSub startTag s = some p) (hq : findSub endTag (s.drop p) = some q) :
    removeBlockGo startTag endTag (fuel + 1) s =
      removeBlockGo startTag endTag fuel
        (revApp (revTake p s [])
          (s.drop (if isPre ['\n'] (s.drop (p + q + endTag.length))
            then p + q + endTag.length + 1 else p + q + endTag.length))) := by
  simp [removeBlockGo, hp, hq]

theorem removeBlockGo_fuel_stable {startTag endTag : List Char} (hend : endTag ≠ []) :
    ∀ (n : Nat) (s : List Char) (m : Nat), s.length + 1 ≤ n → s.length + 1 ≤ m →
      removeBlockGo startTag endTag n s = removeBlockGo startTag endTag m s := by
  intro n
  induction n with
  | zero => intro s m hn _; omega
  | succ n' ih =>
    intro s m hn hm
    obtain ⟨m', rfl⟩ : ∃ m', m = m' + 1 := ⟨m - 1, by omega⟩
    cases hp : findSub startTag s with
    | none => rw [removeBlockGo_succ_none hp, removeBlockGo_succ_none hp]
    | some p =>
      cases hq : findSub endTag (s.drop p) with
      | none => rw [removeBlockGo_succ_break hp hq, removeBlockGo_succ_break hp hq]
      | some q =>
        rw [removeBlockGo_succ_step hp hq, removeBlockGo_succ_step hp hq]
        have hre : p + q + endTag.length ≤
            (if isPre ['\n'] (s.drop (p + q + endTag.length))
              then p + q + endTag.length + 1 else p + q + endTag.length) := by
          split <;> omega
        have hlt := splice_length_lt (List.length_pos.mpr hend) hp hq hre
        exact ih _ _ (by omega) (by omega)

theorem removeBlockGo_post {startTag endTag : List Char} (hend : endTag ≠ []) :
    ∀ (n : Nat) (s : List Char), s.length + 1 ≤ n →
      ∀ p, findSub startTag (removeBlockGo startTag endTag n s) = some p →
        findSub endTag ((removeBlockGo startTag endTag n s).drop p) = none := by
  intro n
  induction n with
  | zero => intro s hn; omega
  | succ n' ih =>
    intro s hn p
    cases hp : findSub startTag s with
    | none =>
      rw [removeBlockGo_succ_none hp]
      intro hcontr
      rw [hp] at hcontr
      exact absurd hcontr (by simp)
    | some p0 =>
      cases hq : findSub endTag (s.drop p0) with
      | none =>
        rw [removeBlockGo_succ_break hp hq]
        intro h
        rw [h] at hp
        obtain rfl : p0 = p := by injection hp with h; exact h.symm
        exact hq
      | some q =>
        rw [removeBlockGo_succ_step hp hq]
        have hre : p0 + q + endTag.length ≤
            (if isPre ['\n'] (s.drop (p0 + q + endTag.length))
              then p0 + q + endTag.length + 1 else p0 + q + endTag.length) := by
          split <;> omega
        have hlt := splice_length_lt (List.length_pos.mpr hend) hp hq hre
        exact ih _ (by omega) p

theorem remove_block_post {startTag endTag s : List Char} (hend : endTag ≠ []) :
    ∀ p, findSub startTag (remove_block startTag endTag s) = some p →
      findSub endTag ((remove_block startTag endTag s).drop p) = none :=
  removeBlockGo_post hend (s.length + 1) s (Nat.le_refl _)

theorem remove_block_break {startTag endTag s : List Char} {p : Nat}
    (h1 : findSub startTag s = some p) (h2 : findSub endTag (s.drop p) = none) :
    remove_block startTag endTag s = s := by
  unfold remove_block
  exact removeBlockGo_succ_break h1 h2

theorem endTagOf_ne_nil (name : List Char) : endTagOf name ≠ [] := by
  have h : endTagOf name =
      Char.ofNat 123 :: Char.ofNat 123 :: Char.ofNat 47 :: (name ++ chars "\x7d\x7d") := rfl
  simp [h]

theorem toleratedCode_iff (c : Int) :
    toleratedCode c = true ↔ (c = 0 ∨ c = 130 ∨ c = 141) := by
  simp [toleratedCode, or_assoc]

theorem qsub_eq (x y : ℚ) : qsub x y = x - y := by
  rw [qsub, Rat.sub_def']

theorem qdiv_eq (x y : ℚ) : qdiv x y = x / y := by
  conv_rhs => rw [← Rat.num_divInt_den x, ← Rat.num_divInt_den y]
  rw [Rat.divInt_div_divInt]
  rfl

theorem qabs_eq (x : ℚ) : qabs x = |x| := by
  unfold qabs
  rcases le_or_lt 0 x.num with h | h
  · rw [abs_of_nonneg h, Rat.mkRat_self, abs_of_nonneg (Rat.num_nonneg.mp h)]
  · have hx : x < 0 := by
      by_contra hc
      exact absurd (Rat.num_nonneg.mpr (not_lt.mp hc)) (not_le.mpr h)
    rw [abs_of_neg h, abs_of_neg hx, Rat.mkRat_eq_divInt, ← Rat.neg_divInt, Rat.num_divInt_den]

/-! ## Claim theorems -/

/-- C1: the claim says every optional numeric stage parameter with a
documented default is omitted at its default value, including the deband,
sharpen, dehalo and noise-reduction parameters.  Counterexample: the deband
pass passes every value as present with no default comparison, so with the
deband stage enabled and `range` equal to its documented default 15, the
script rendered from the DEBAND section of the repository's preview
template still contains the token `range=15`. -/
theorem c1_deband_default_rendered_cex :
    DebandParameters.default.range = 15 ∧
    pipelineDebandDefault.deband.range = 15 ∧
    pipelineDebandDefault.deband.enabled = true ∧
    jobDebandDefault.effective_pipeline = pipelineDebandDefault ∧
    containsSub (chars "range=15")
      (substitute_parameters_on debandSectionTemplate jobDebandDefault pipelineDebandDefault)
      = true :=
  ⟨rfl, rfl, rfl, rfl, rfl⟩

/-- C1 (amended): omit-if-default is a per-parameter property, not a
stage-wide one.  It holds for the optional QTGMC deinterlace parameters
(`FPS_DIVISOR` is omitted exactly at its documented default 1, `TH_SAD1` at
640), for the noise-reduction prefilter (`NR_PREFILTER`, omitted exactly at
its documented default 2) and for the color-correction tweak parameters
(`COLOR_BRIGHTNESS`, omitted exactly at its documented default 0): at the
default the block is removed, and a deviating value renders exactly (the
default `fps_divisor = 1` leaves no `FPSDivisor` token while
`fps_divisor = 2` renders `FPSDivisor=2`).  But the claim's universal form
fails: every deband, sharpen and dehalo parameter, and the main
noise-reduction parameters (`NR_TR`, `NR_SIGMA`), are always passed as
present whenever their stage and method run, with no default comparison —
the deband `range` renders its exact value whether at the documented
default 15 (the counterexample) or deviating (20, proved here). -/
theorem c1_default_omission_amended :
    (∀ p : QTGMCParameters, fpsDivisorArg p = none ↔ p.fps_divisor = 1) ∧
    (∀ p : QTGMCParameters, thSad1Arg p = none ↔ p.th_sad1 = 640) ∧
    (∀ nr : NoiseReductionParameters,
      nrPrefilterArg nr = none ↔ nr.sm_degrain_prefilter = 2) ∧
    NoiseReductionParameters.default.sm_degrain_prefilter = 2 ∧
    (∀ c : ColorCorrectionParameters,
      colorBrightnessArg c = none ↔ c.brightness = 0) ∧
    ColorCorrectionParameters.default.brightness = 0 ∧
    (∀ d : DebandParameters, debandRangeArg d = some d.range) ∧
    (∀ nr : NoiseReductionParameters, nrTrArg nr = some nr.sm_degrain_tr) ∧
    (∀ nr : NoiseReductionParameters, nrSigmaArg nr = some nr.mc_temporal_sigma) ∧
    (∀ sp : SharpenParameters, sharpenStrengthArg sp = some sp.strength) ∧
    (∀ dh : DehaloParameters, dehaloRxArg dh = some dh.rx) ∧
    QTGMCParameters.default.fps_divisor = 1 ∧
    process_optional_int (chars "FPS_DIVISOR") (fpsDivisorArg QTGMCParameters.default)
      fpsDivisorBlock = [] ∧
    qtgmcDiv2.fps_divisor = 2 ∧
    process_optional_int (chars "FPS_DIVISOR") (fpsDivisorArg qtgmcDiv2) fpsDivisorBlock =
      chars "\n    FPSDivisor=2,\n\n" ∧
    containsSub (chars "range=20")
      (substitute_parameters_on debandSectionTemplate jobDebandRange20 pipelineDebandRange20)
      = true := by
  refine ⟨?_, ?_, ?_, rfl, ?_, rfl, fun d => rfl, fun nr => rfl, fun nr => rfl,
    fun sp => rfl, fun dh => rfl, rfl, by decide, rfl, by decide, by decide⟩
  · intro p
    unfold fpsDivisorArg
    split <;> simp_all
  · intro p
    unfold thSad1Arg
    split <;> simp_all
  · intro nr
    unfold nrPrefilterArg
    split <;> simp_all
  · intro c
    unfold colorBrightnessArg
    split <;> simp_all

/-- C2: the claim says exit codes 130 and 141 are tolerated as non-error
ONLY during cancellation.  Counterexample: with the cancellation predicate
constantly false, `execute` still returns success when vspipe (or ffmpeg)
exits with 141 or 130, instead of the hard failure the claim requires for a
non-cancelled run. -/
theorem c2_codes_tolerated_without_cancellation_cex :
    executeModel (fun _ => false) [] (some 141) (some 0) = (Except.ok (), false) ∧
    executeModel (fun _ => false) [] (some 0) (some 141) = (Except.ok (), false) ∧
    executeModel (fun _ => false) [] (some 130) (some 0) = (Except.ok (), false) :=
  ⟨rfl, rfl, rfl⟩

/-- C2 (amended): code 0 is success and 130/141 are tolerated
unconditionally (cancelled or not); any other code from either process is a
hard failure naming the offending process (vspipe checked first) and the
code. -/
theorem c2_exit_code_policy_amended :
    ∀ (v f : Option Int),
      (exitCodeCheck v f = Except.ok () ↔
        toleratedCode (codeOf v) = true ∧ toleratedCode (codeOf f) = true) ∧
      (toleratedCode (codeOf v) = false →
        exitCodeCheck v f =
          Except.error (chars "vspipe exited with code " ++ intToStr (codeOf v))) ∧
      (toleratedCode (codeOf v) = true → toleratedCode (codeOf f) = false →
        exitCodeCheck v f =
          Except.error (chars "ffmpeg exited with code " ++ intToStr (codeOf f))) := by
  intro v f
  have hiff : ∀ c : Int, (c ≠ 0 ∧ c ≠ 130 ∧ c ≠ 141) ↔ toleratedCode c = false := by
    intro c
    rw [← Bool.not_eq_true, toleratedCode_iff]
    tauto
  unfold exitCodeCheck
  by_cases hv : codeOf v ≠ 0 ∧ codeOf v ≠ 130 ∧ codeOf v ≠ 141
  · have hvf : toleratedCode (codeOf v) = false := (hiff _).mp hv
    rw [if_pos hv]
    refine ⟨⟨fun habs => by simp at habs, fun ⟨h1, _⟩ => by rw [h1] at hvf; simp at hvf⟩,
      fun _ => rfl, fun h1 _ => by rw [h1] at hvf; simp at hvf⟩
  · have hvt : toleratedCode (codeOf v) = true := by
      rcases Bool.eq_false_or_eq_true (toleratedCode (codeOf v)) with h | h
      · exact h
      · exact absurd ((hiff _).mpr h) hv
    rw [if_neg hv]
    by_cases hf : codeOf f ≠ 0 ∧ codeOf f ≠ 130 ∧ codeOf f ≠ 141
    · have hff : toleratedCode (codeOf f) = false := (hiff _).mp hf
      rw [if_pos hf]
      refine ⟨⟨fun habs => by simp at habs, fun ⟨_, h2⟩ => by rw [h2] at hff; simp at hff⟩,
        fun h1 => by rw [hvt] at h1; simp at h1, fun _ _ => rfl⟩
    · have hft : toleratedCode (codeOf f) = true := by
        rcases Bool.eq_false_or_eq_true (toleratedCode (codeOf f)) with h | h
        · exact h
        · exact absurd ((hiff _).mpr h) hf
      rw [if_neg hf]
      refine ⟨⟨fun _ => ⟨hvt, hft⟩, fun _ => rfl⟩,
        fun h1 => by rw [hvt] at h1; simp at h1,
        fun _ h2 => by rw [hft] at h2; simp at h2⟩

/-- Witness for C2 (amended) at concrete exit codes. -/
theorem c2_exit_code_policy_amended_witness :
    exitCodeCheck (some 1) (some 0) =
      Except.error (chars "vspipe exited with code " ++ intToStr (codeOf (some 1))) ∧
    exitCodeCheck (some 0) (some 2) =
      Except.error (chars "ffmpeg exited with code " ++ intToStr (codeOf (some 2))) :=
  ⟨(c2_exit_code_policy_amended (some 1) (some 0)).2.1 (by decide),
   (c2_exit_code_policy_amended (some 0) (some 2)).2.2 (by decide) (by decide)⟩

/-- C3: the claim conditions the doubling on "no independent total is
already known".  Counterexample: with a reported total of 1000, divisor 1,
and a job-level total of 5000 already known, the code doubles the reported
total (2000) while the claim's formula yields the job total (5000). -/
theorem c3_effective_total_cex :
    effectiveTotalFrames 1000 1 (some 5000) = 2000 ∧
    effectiveTotalClaim 1000 1 (some 5000) = 5000 ∧
    effectiveTotalFrames 1000 1 (some 5000) ≠ effectiveTotalClaim 1000 1 (some 5000) := by
  refine ⟨by decide, by decide, by decide⟩

/-- C3 (amended): the effective total doubles the reported total exactly
when the reported total is positive and the fps divisor is 1 (regardless of
any job-level total); it is the reported total itself when positive with
divisor ≠ 1; and it falls back to the job's pre-known total only when no
positive total was reported.  The scenario (stage A reports
`INPUT_INFO:frames=1000,fps_num=25,fps_den=1`, stage B reports
`frame=500 fps=25.0`, rate-doubling active, no job total) emits
`totalFrames=2000, frame=500, fps=25.0, eta=60.0`. -/
theorem c3_effective_total_amended :
    (∀ (r d : Int) (j : Option Int),
      (0 < r → d = 1 → effectiveTotalFrames r d j = r * 2) ∧
      (0 < r → d ≠ 1 → effectiveTotalFrames r d j = r) ∧
      (r ≤ 0 → effectiveTotalFrames r d j = j.getD 0)) ∧
    totalFromVspipeLines [chars "INPUT_INFO:frames=1000,fps_num=25,fps_den=1"] = 1000 ∧
    ffmpegLineStep (0, 0) (chars "frame=500 fps=25.0") = (500, 25) ∧
    jobBase.qtgmc_parameters.fps_divisor = 1 ∧ jobBase.total_frames = none ∧
    progressEmission jobBase 1000 500 25 =
      { frame := 500, total_frames := 2000, fps := 25, eta := 60 } := by
  refine ⟨?_, rfl, by decide, rfl, rfl, by decide⟩
  intro r d j
  refine ⟨fun hr hd => ?_, fun hr hd => ?_, fun hr => ?_⟩
  · simp [effectiveTotalFrames, hr, hd]
  · simp [effectiveTotalFrames, hr, hd]
  · rw [effectiveTotalFrames, if_neg (by omega)]

/-- Witness for C3 (amended) at concrete totals. -/
theorem c3_effective_total_amended_witness :
    effectiveTotalFrames 1000 1 (some 5000) = 1000 * 2 ∧
    effectiveTotalFrames 1000 2 none = 1000 ∧
    effectiveTotalFrames 0 1 (some 7) = 7 :=
  ⟨(c3_effective_total_amended.1 1000 1 (some 5000)).1 (by decide) rfl,
   (c3_effective_total_amended.1 1000 2 none).2.1 (by decide) (by decide),
   (c3_effective_total_amended.1 0 1 (some 7)).2.2 (by decide)⟩

/-- C4: on cancellation observed while reading stage B's stream, `execute`
kills both children and returns the distinguished "Job cancelled" error,
which `main` surfaces as an info log plus `complete(false)` — but
`run_worker` propagates that error via `result?` BEFORE its
remove-partial-output step, so the job's output file is NOT removed,
contrary to the claim and to the code's own
"If cancelled, remove partial output" comment (main.rs line 194): the first
component of `runWorkerModel` (output removed?) is `false` even though the
cancellation flag is set. -/
theorem c4_cancellation_output_not_removed :
    executeModel (fun _ => true) [chars "frame=1 fps=10.0"] (some 141) (some 141) =
      (Except.error (chars "Job cancelled"), true) ∧
    runWorkerModel (Except.error (chars "Job cancelled")) true (chars "out.mp4") =
      (false, Except.error (chars "Job cancelled")) ∧
    mainEvents (Except.error (chars "Job cancelled")) =
      [Event.log (chars "info") (chars "Job cancelled by user"),
       Event.complete false none] :=
  ⟨rfl, rfl, rfl⟩

/-- C5: the claim says ETA equals `(total − frame) / rate` WHENEVER the rate
is positive, with no further condition.  Counterexample: with rate 25,
effective total 100 and current frame 150, the code emits 0 while the
claim's formula yields −2. -/
theorem c5_eta_cex :
    etaOf 25 100 150 = 0 ∧
    etaClaim 25 100 150 = -2 ∧
    etaOf 25 100 150 ≠ etaClaim 25 100 150 := by
  have h1 : etaOf 25 100 150 = 0 := by decide
  have h2 : etaClaim 25 100 150 = -2 := by
    rw [etaClaim, if_pos (by norm_num : (0 : ℚ) < 25)]
    norm_num
  refine ⟨h1, h2, by rw [h1, h2]; norm_num⟩

/-- C5 (amended): ETA equals `(effectiveTotal − currentFrame) /
currentRate` when the rate is positive AND the effective total exceeds the
current frame; it equals 0 when the rate is not positive, and ALSO 0 when
the rate is positive but the effective total does not exceed the current
frame. -/
theorem c5_eta_amended :
    ∀ (fps : ℚ) (t f : Int),
      (0 < fps → f < t → etaOf fps t f = ((t - f : Int) : ℚ) / fps) ∧
      (¬0 < fps → etaOf fps t f = 0) ∧
      (0 < fps → t ≤ f → etaOf fps t f = 0) := by
  intro fps t f
  refine ⟨fun h1 h2 => ?_, fun h1 => ?_, fun h1 h2 => ?_⟩
  · unfold etaOf
    rw [if_pos (⟨h1, h2⟩ : 0 < fps ∧ f < t), qdiv_eq]
  · unfold etaOf
    rw [if_neg (fun h => h1 h.1)]
  · unfold etaOf
    rw [if_neg (fun h => absurd h2 (by omega))]

/-- Witness for C5 (amended) at concrete values. -/
theorem c5_eta_amended_witness :
    etaOf 25 2000 500 = ((2000 - 500 : Int) : ℚ) / 25 ∧
    etaOf 0 2000 500 = 0 ∧
    etaOf 25 100 150 = 0 :=
  ⟨(c5_eta_amended 25 2000 500).1 (by decide) (by decide),
   (c5_eta_amended 0 2000 500).2.1 (by decide),
   (c5_eta_amended 25 100 150).2.2 (by decide) (by decide)⟩

/-- C6: the claim says the removal of an absent field's blocks "repeats
until no occurrence of the start marker remains".  Counterexample: on
`spliceInput` the single removal splices the text before the start marker
onto the text after the end marker, creating a fresh start marker with no
end marker after it, and the loop then stops — its break is on a missing
END marker, never on a remaining start marker — so the rendered result
still contains the start marker of the absent field `X`. -/
theorem c6_start_marker_survives_cex :
    process_optional_string (chars "X") none spliceInput =
      chars "\x7b\x7b#X\x7d\x7drest" ∧
    containsSub (startTagOf (chars "X"))
      (process_optional_string (chars "X") none spliceInput) = true :=
  ⟨rfl, rfl⟩

/-- C6 (amended): for every template and every absent field, removal repeats
until no COMPLETE marker-delimited region for the field remains — the first
remaining start-marker occurrence, if any, has no end marker at or after it
(the loop stops on a missing end marker, which can leave an unmatched start
marker behind, as on `spliceInput`); on a template whose every occurrence is
a complete region followed by a newline, such as the three-block `tpl3`, the
regions and trailing newlines are all deleted and zero occurrences of the
start marker remain. -/
theorem c6_block_removal_amended :
    (∀ (name s : List Char),
      noFullBlock name (process_optional_string name none s)) ∧
    process_optional_string (chars "VAL") none tpl3 = chars "a\nb\nb2\nc" ∧
    containsSub (startTagOf (chars "VAL"))
      (process_optional_string (chars "VAL") none tpl3) = false := by
  refine ⟨fun name s => ?_, by decide, by decide⟩
  intro p hp
  exact remove_block_post (endTagOf_ne_nil name) p hp

/-- Witness for C6 (amended): the start marker surviving in the rendering of
`spliceInput` (at position 0) indeed has no end marker after it. -/
theorem c6_block_removal_amended_witness :
    findSub (endTagOf (chars "X"))
      ((process_optional_string (chars "X") none spliceInput).drop 0) = none :=
  c6_block_removal_amended.1 (chars "X") spliceInput 0 (by decide)

/-- C7: the claim says a disabled stage's rendered script contains zero
occurrences of that stage's filter invocation token.  Counterexample: in the
embedded fallback primary template the QTGMC invocation is not
marker-delimited (only the TFF, FPS_DIVISOR and OPENCL argument lines are),
so with every stage disabled — deinterlace included — the generated script
still contains the invocation token `haf.QTGMC`. -/
theorem c7_disabled_qtgmc_rendered_cex :
    pipelineAllDisabled.deinterlace.enabled = false ∧
    jobAllDisabled.effective_pipeline = pipelineAllDisabled ∧
    containsSub (chars "haf.QTGMC") (generateScriptContent jobAllDisabled) = true := by
  exact ⟨rfl, rfl, by decide⟩

/-- C7 (amended): a disabled stage's pass is exactly `remove_block` on that
stage's markers (for crop/resize, on both the PRE_CROP and RESIZE markers),
after which no complete marker-delimited region for the stage name remains —
but only the marker-delimited regions are removed: content outside the
markers, such as the embedded fallback template's QTGMC invocation, is left
in place.  In the all-disabled rendering no DEINTERLACE start marker
remains. -/
theorem c7_disabled_stage_removal_amended :
    (∀ (params : QTGMCParameters) (pl : RestorationPipeline) (s : List Char),
      pl.deinterlace.enabled = false →
      deinterlacePass params pl s = rmBlockN (chars "DEINTERLACE") s) ∧
    (∀ (pl : RestorationPipeline) (s : List Char),
      pl.noise_reduction.enabled = false →
      noiseReductionPass pl s = rmBlockN (chars "NOISE_REDUCTION") s) ∧
    (∀ (pl : RestorationPipeline) (s : List Char), pl.dehalo.enabled = false →
      dehaloPass pl s = rmBlockN (chars "DEHALO") s) ∧
    (∀ (pl : RestorationPipeline) (s : List Char), pl.deblock.enabled = false →
      deblockPass pl s = rmBlockN (chars "DEBLOCK") s) ∧
    (∀ (pl : RestorationPipeline) (s : List Char), pl.deband.enabled = false →
      debandPass pl s = rmBlockN (chars "DEBAND") s) ∧
    (∀ (pl : RestorationPipeline) (s : List Char), pl.sharpen.enabled = false →
      sharpenPass pl s = rmBlockN (chars "SHARPEN") s) ∧
    (∀ (pl : RestorationPipeline) (s : List Char), pl.chroma_fixes.enabled = false →
      chromaFixesPass pl s = rmBlockN (chars "CHROMA_FIXES") s) ∧
    (∀ (pl : RestorationPipeline) (s : List Char),
      pl.color_correction.enabled = false →
      colorCorrectionPass pl s = rmBlockN (chars "COLOR_CORRECTION") s) ∧
    (∀ (pl : RestorationPipeline) (s : List Char), pl.crop_resize.enabled = false →
      preCropPass pl s = rmBlockN (chars "PRE_CROP") s ∧
      resizePass pl s = rmBlockN (chars "RESIZE") s) ∧
    (∀ (name s : List Char), noFullBlock name (rmBlockN name s)) ∧
    containsSub (startTagOf (chars "DEINTERLACE"))
      (generateScriptContent jobAllDisabled) = false := by
  refine ⟨fun params pl s h => by simp [deinterlacePass, h],
    fun pl s h => by simp [noiseReductionPass, h],
    fun pl s h => by simp [dehaloPass, h],
    fun pl s h => by simp [deblockPass, h],
    fun pl s h => by simp [debandPass, h],
    fun pl s h => by simp [sharpenPass, h],
    fun pl s h => by simp [chromaFixesPass, h],
    fun pl s h => by simp [colorCorrectionPass, h],
    fun pl s h => ⟨by simp [preCropPass, h], by simp [resizePass, h]⟩,
    fun name s => ?_, by decide⟩
  intro p hp
  exact remove_block_post (endTagOf_ne_nil name) p hp

/-- Witness for C7 (amended): the disabled-stage reductions at the
all-disabled pipeline on a concrete string. -/
theorem c7_disabled_stage_removal_amended_witness :
    deinterlacePass QTGMCParameters.default pipelineAllDisabled (chars "x") =
      rmBlockN (chars "DEINTERLACE") (chars "x") ∧
    debandPass pipelineAllDisabled (chars "x") =
      rmBlockN (chars "DEBAND") (chars "x") ∧
    preCropPass pipelineAllDisabled (chars "x") =
      rmBlockN (chars "PRE_CROP") (chars "x") :=
  ⟨c7_disabled_stage_removal_amended.1 QTGMCParameters.default pipelineAllDisabled
      (chars "x") rfl,
   c7_disabled_stage_removal_amended.2.2.2.2.1 pipelineAllDisabled (chars "x") rfl,
   (c7_disabled_stage_removal_amended.2.2.2.2.2.2.2.2.1 pipelineAllDisabled
      (chars "x") rfl).1⟩

/-- C8: double rendering.  A value with no fractional part — a rational with
denominator 1, equivalently an integer value — is rendered through the
one-decimal-digit format as its integer part followed by ".0"; any other
value is rendered with four decimal digits (round half to even) and then
stripped of trailing zeros, and of the trailing decimal point when stripping
zeros leaves an integer-looking value.  Concretely, 5/2 renders as "2.5",
2 as "2.0", 1/16 as "0.0625", -5/2 as "-2.5" and 314/100 as "3.14". -/
theorem c8_double_rendering_confirmed :
    (∀ q : ℚ, (∃ n : ℤ, q = (n : ℚ)) ↔ q.den = 1) ∧
    (∀ q : ℚ, q.den = 1 → formatDouble q = intToStr q.num ++ chars ".0") ∧
    (∀ q : ℚ, q.den ≠ 1 →
      formatDouble q = trimEndChar '.' (trimEndChar '0' (fmtFixed4 q))) ∧
    formatDouble ((5 : ℚ) / 2) = chars "2.5" ∧
    formatDouble (2 : ℚ) = chars "2.0" ∧
    formatDouble ((1 : ℚ) / 16) = chars "0.0625" ∧
    formatDouble (-(5 : ℚ) / 2) = chars "-2.5" ∧
    formatDouble ((314 : ℚ) / 100) = chars "3.14" := by
  have h52 : (5 : ℚ) / 2 = mkRat 5 2 := by
    rw [Rat.mkRat_eq_divInt, Rat.divInt_eq_div]; norm_num
  have hm52 : -(5 : ℚ) / 2 = mkRat (-5) 2 := by
    rw [Rat.mkRat_eq_divInt, Rat.divInt_eq_div]; norm_num
  have h116 : (1 : ℚ) / 16 = mkRat 1 16 := by
    rw [Rat.mkRat_eq_divInt, Rat.divInt_eq_div]; norm_num
  have h314 : (314 : ℚ) / 100 = mkRat 314 100 := by
    rw [Rat.mkRat_eq_divInt, Rat.divInt_eq_div]; norm_num
  refine ⟨fun q => ⟨?_, fun h => ⟨q.num, ((Rat.den_eq_one_iff q).mp h).symm⟩⟩,
    fun q h => ?_, fun q h => ?_,
    by rw [h52]; decide, by decide, by rw [h116]; decide,
    by rw [hm52]; decide, by rw [h314]; decide⟩
  · rintro ⟨n, rfl⟩
    exact Rat.den_intCast n
  · rw [formatDouble, if_pos h]
  · rw [formatDouble, if_neg h]

/-- Witness for C8 at concrete values of each branch. -/
theorem c8_double_rendering_confirmed_witness :
    formatDouble (mkRat 2 1) = intToStr (mkRat 2 1).num ++ chars ".0" ∧
    formatDouble (mkRat 5 2) =
      trimEndChar '.' (trimEndChar '0' (fmtFixed4 (mkRat 5 2))) :=
  ⟨c8_double_rendering_confirmed.2.1 (mkRat 2 1) (by decide),
   c8_double_rendering_confirmed.2.2.1 (mkRat 5 2) (by decide)⟩

/-- C9: script generation is deterministic.  The substitution engine is a
pure function of the template text, the job and the pipeline (the embedding
is a function, and the source's substitute_parameters reads no state beyond
these inputs — no clock, randomness or environment), so any two runs on the
same inputs produce byte-identical script contents. -/
theorem c9_generation_deterministic :
    ∀ (template : List Char) (job : VideoJob) (pl : RestorationPipeline)
      (r1 r2 : List Char),
      r1 = substitute_parameters template job pl →
      r2 = substitute_parameters template job pl → r1 = r2 := by
  intro template job pl r1 r2 h1 h2
  rw [h1, h2]

/-- Witness for C9: two renderings of the embedded template for the same job
coincide. -/
theorem c9_generation_deterministic_witness :
    generateScriptContent jobBase = generateScriptContent jobBase :=
  c9_generation_deterministic embeddedTemplate jobBase jobBase.effective_pipeline
    (generateScriptContent jobBase) (generateScriptContent jobBase) rfl rfl

/-- C10: remove_block terminates on every input — the fuel `s.length + 1`
that the wrapper supplies provably suffices, i.e. any larger fuel yields the
same result (first conjunct), because each removal strictly shortens the
string (second conjunct) and the loop stops as soon as a tag is missing —
and on every input whose first start-marker occurrence has no end marker at
or after it, remove_block returns the string unchanged, leaving the
unmatched start marker in place rather than failing or looping (third
conjunct). -/
theorem c10_remove_block_termination :
    (∀ (startTag endTag s : List Char), endTag ≠ [] →
      ∀ n, s.length + 1 ≤ n →
        removeBlockGo startTag endTag n s = remove_block startTag endTag s) ∧
    (∀ (startTag endTag s : List Char) (p q removeEnd : Nat), endTag ≠ [] →
      findSub startTag s = some p → findSub endTag (s.drop p) = some q →
      p + q + endTag.length ≤ removeEnd →
      (revApp (revTake p s []) (s.drop removeEnd)).length < s.length) ∧
    (∀ (startTag endTag s : List Char) (p : Nat),
      findSub startTag s = some p → findSub endTag (s.drop p) = none →
      remove_block startTag endTag s = s) := by
  refine ⟨?_, ?_, ?_⟩
  · intro startTag endTag s hend n hn
    exact removeBlockGo_fuel_stable hend n s (s.length + 1) hn (Nat.le_refl _)
  · intro startTag endTag s p q removeEnd hend hp hq hre
    exact splice_length_lt (List.length_pos.mpr hend) hp hq hre
  · intro startTag endTag s p hp hq
    exact remove_block_break hp hq

/-- Witness for C10: fuel-sufficiency, strict shortening and the
unmatched-marker break at concrete inputs. -/
theorem c10_remove_block_termination_witness :
    removeBlockGo (startTagOf (chars "X")) (endTagOf (chars "X")) 99 spliceInput =
      remove_block (startTagOf (chars "X")) (endTagOf (chars "X")) spliceInput ∧
    (revApp (revTake 2 spliceInput []) (spliceInput.drop 15)).length <
      spliceInput.length ∧
    remove_block (startTagOf (chars "VAL")) (endTagOf (chars "VAL"))
      (chars "\x7b\x7b#VAL\x7d\x7dunclosed") = chars "\x7b\x7b#VAL\x7d\x7dunclosed" :=
  ⟨c10_remove_block_termination.1 (startTagOf (chars "X")) (endTagOf (chars "X"))
      spliceInput (by decide) 99 (by decide),
   c10_remove_block_termination.2.1 (startTagOf (chars "X")) (endTagOf (chars "X"))
      spliceInput 2 7 15 (by decide) (by decide) (by decide) (by decide),
   c10_remove_block_termination.2.2 (startTagOf (chars "VAL"))
      (endTagOf (chars "VAL")) (chars "\x7b\x7b#VAL\x7d\x7dunclosed") 0
      (by decide) (by decide)⟩

end VapourBox
